import Mathlib

/-!
Verification development for the KiCad library index
(`src/kicad_mcp/utils/library_index.py`).

We shallowly embed the index: strings are lists of characters, the
filesystem is an explicit value (directory entries with names,
modification times and contents), the SQLite store is a record of
optional tables plus a key/value metadata table, and every operation of
`LibraryIndex` is translated into a pure Lean function over these
values.  Regex scans of the Python source are translated into explicit
character-list matchers that implement the same (left-to-right,
greedy-run) semantics for the specific patterns the source uses.
-/

namespace KicadLib

/-! ## Python string primitives -/

/-- Characters treated as whitespace by Python's `str.split()` / `str.strip()`
and by the regex class \s (ASCII range, which is all the source relies on). -/
def isPySpace (c : Char) : Bool :=
  c = ' ' || c = '\t' || c = '\n' || c = '\r' || c = '\x0b' || c = '\x0c'

/-- Python `str.strip()`: drop leading and trailing whitespace. -/
def pyStrip (s : List Char) : List Char :=
  ((s.dropWhile isPySpace).reverse.dropWhile isPySpace).reverse

/-- Helper for `pySplit`: accumulate the current word (reversed) while
scanning. -/
def pySplitAux : List Char → List Char → List (List Char)
  | [], acc => if acc.isEmpty then [] else [acc.reverse]
  | c :: cs, acc =>
    if isPySpace c then
      if acc.isEmpty then pySplitAux cs [] else acc.reverse :: pySplitAux cs []
    else pySplitAux cs (c :: acc)

/-- Python `str.split()` with no argument: split on runs of whitespace,
discarding empty pieces. -/
def pySplit (s : List Char) : List (List Char) := pySplitAux s []

/-- Python truthiness of an `Optional[str]`: `None` and the empty string are
falsy. -/
def pyTruthy (s : Option (List Char)) : Bool :=
  match s with
  | some l => !l.isEmpty
  | none => false

/-! ## FTS query construction (`LibraryIndex._build_fts_query`) -/

/-- Python `term.replace(chr(34), chr(34) ++ chr(34))`: double every embedded
double-quote character. -/
def escapeQuotes : List Char → List Char
  | [] => []
  | c :: cs => if c = '"' then '"' :: '"' :: escapeQuotes cs else c :: escapeQuotes cs

/-- An exact quoted FTS token: the escaped term wrapped in double quotes. -/
def quotedTerm (t : List Char) : List Char :=
  '"' :: (escapeQuotes t ++ ['"'])

/-- A quoted FTS token with a trailing star, matching anything that starts
with the term. -/
def starTerm (t : List Char) : List Char :=
  '"' :: (escapeQuotes t ++ ['"', '*'])

/-- Model of Python's `enumerate` starting at index `i`. -/
def withIdx : Nat → List α → List (Nat × α)
  | _, [] => []
  | i, x :: xs => (i, x) :: withIdx (i + 1) xs

/-- Python `sep.join(xs)` for a single-space separator. -/
def joinSpace : List (List Char) → List Char
  | [] => []
  | [t] => t
  | t :: ts => t ++ ' ' :: joinSpace ts

/-- Direct translation of `LibraryIndex._build_fts_query`: strip the query,
split it on whitespace, escape quotes in every term, quote every term, add a
star to the last one, and join with single spaces. -/
def buildFtsQuery (q : List Char) : List Char :=
  let terms := pySplit (pyStrip q)
  let ftsTerms := (withIdx 0 terms).map
    (fun p => if p.1 = terms.length - 1 then starTerm p.2 else quotedTerm p.2)
  joinSpace ftsTerms

/-- Formulation following the specification text: split the query on
whitespace; every term except the last becomes an exact quoted token, the
last term becomes a quoted token with a trailing star; tokens are joined by
single spaces (implicit AND). -/
def specFtsTokens : List (List Char) → List (List Char)
  | [] => []
  | [t] => [starTerm t]
  | t :: ts => quotedTerm t :: specFtsTokens ts

/-- The search expression as the specification describes it. -/
def specFtsQuery (q : List Char) : List Char :=
  joinSpace (specFtsTokens (pySplit q))

/-! ## String constants used by the source -/

/-- Directory suffix of a footprint library. -/
def prettySuffix : List Char := ".pretty".toList

/-- File suffix of a footprint file. -/
def kicadModSuffix : List Char := ".kicad_mod".toList

/-- File suffix of a symbol library file. -/
def kicadSymSuffix : List Char := ".kicad_sym".toList

/-- Metadata key for the footprint build timestamp. -/
def fpBuildTimeKey : List Char := "fp_build_time".toList

/-- Metadata key for the footprint library root recorded at build time. -/
def fpLibPathKey : List Char := "fp_lib_path".toList

/-- Metadata key for the footprint record count. -/
def fpCountKey : List Char := "fp_count".toList

/-- Metadata key for the symbol build timestamp. -/
def symBuildTimeKey : List Char := "sym_build_time".toList

/-- Metadata key for the symbol library root recorded at build time. -/
def symLibPathKey : List Char := "sym_lib_path".toList

/-- Metadata key for the symbol record count. -/
def symCountKey : List Char := "sym_count".toList

/-- The word scanned for by the `descr` field regex. -/
def descrWord : List Char := "descr".toList

/-- The word scanned for by the `tags` field regex. -/
def tagsWord : List Char := "tags".toList

/-- The word scanned for by the `footprint` header regex. -/
def footprintWord : List Char := "footprint".toList

/-- The word scanned for by the pad-count regex. -/
def padWord : List Char := "pad".toList

/-- The word scanned for by the pin-count regex. -/
def pinWord : List Char := "pin".toList

/-- The word scanned for by the property regex. -/
def propertyWord : List Char := "property".toList

/-- The key of the description property of a symbol. -/
def descriptionKey : List Char := "Description".toList

/-- The key of the keywords property of a symbol. -/
def keywordsKey : List Char := "ki_keywords".toList

/-- Head of a top-level symbol declaration: a tab followed by an opening
parenthesis and the word symbol (regex `^TAB(symbol`). -/
def symbolHead : List Char := "\t(symbol".toList

/-- Separator of `library:name` identifiers. -/
def colon : List Char := ":".toList

/-! ## Regex-style matchers

The source extracts fields with a handful of fixed regular expressions.
Each is translated here into a character-list matcher with the same
semantics.  A pattern of the shape `X\s+"([^"]*)"` is matched by taking the
greedy whitespace run and then requiring a quote: the regex engine's
backtracking can never succeed with a shorter run, because the character
after a shorter run is again whitespace, not a quote; similarly `[^"]+` is
the greedy run of non-quote characters. -/

/-- Match the pattern OPEN-PAREN tag `\s+` QUOTE value QUOTE at the start of
`s`; `needNonEmpty` selects between `[^"]+` and `[^"]*` for the value. -/
def matchTagValAt (tag : List Char) (needNonEmpty : Bool) (s : List Char) :
    Option (List Char) :=
  match s with
  | '(' :: rest =>
    if rest.take tag.length = tag then
      let r2 := rest.drop tag.length
      if (r2.takeWhile isPySpace).isEmpty then none
      else
        match r2.dropWhile isPySpace with
        | '"' :: r3 =>
          let v := r3.takeWhile (fun c => c ≠ '"')
          if needNonEmpty && v.isEmpty then none
          else
            match r3.dropWhile (fun c => c ≠ '"') with
            | '"' :: _ => some v
            | _ => none
        | _ => none
    else none
  | _ => none

/-- Python `re.search` for the tag/value pattern: return the value of the
match at the leftmost matching position. -/
def searchTagVal (tag : List Char) (needNonEmpty : Bool) : List Char → Option (List Char)
  | [] => none
  | c :: s =>
    match matchTagValAt tag needNonEmpty (c :: s) with
    | some v => some v
    | none => searchTagVal tag needNonEmpty s

/-- Does the pattern OPEN-PAREN tag `\s` start at the head of `s`?  Used for
counting pad/pin declarations (`len(re.findall(...))`). -/
def tagStartsHere (tag : List Char) (s : List Char) : Bool :=
  match s with
  | '(' :: rest =>
    decide (rest.take tag.length = tag) &&
      (match rest.drop tag.length with
       | d :: _ => isPySpace d
       | [] => false)
  | _ => false

/-- The length of `dropWhile` output never exceeds the input length. -/
theorem length_dropWhile_le (p : α → Bool) (l : List α) :
    (l.dropWhile p).length ≤ l.length := by
  induction l with
  | nil => simp [List.dropWhile]
  | cons x xs ih =>
    by_cases h : p x
    · simp [List.dropWhile, h]
      omega
    · simp [List.dropWhile, h]

/-- Fuel-bounded scan counting the non-overlapping matches of OPEN-PAREN
tag `\s+`, left to right; after a match the scan resumes past the greedy
whitespace run, exactly as `re.findall` does.  Every step consumes at least
one character, so fuel equal to the input length never runs out; the fuel
only makes the recursion structural so that evaluation reduces in the
kernel. -/
def countTagAux (tag : List Char) : Nat → List Char → Nat
  | 0, _ => 0
  | _ + 1, [] => 0
  | fuel + 1, c :: cs =>
    if tagStartsHere tag (c :: cs) then
      1 + countTagAux tag fuel (((c :: cs).drop (tag.length + 1)).dropWhile isPySpace)
    else countTagAux tag fuel cs

/-- `len(re.findall(...))` for the OPEN-PAREN tag `\s+` pattern. -/
def countTag (tag : List Char) (s : List Char) : Nat :=
  countTagAux tag s.length s

/-- Match the property pattern OPEN-PAREN property `\s+` QUOTE key QUOTE
`\s+` QUOTE value QUOTE at the start of `s`, returning the captured value
(`[^"]*`, possibly empty). -/
def matchPropValAt (key : List Char) (s : List Char) : Option (List Char) :=
  match s with
  | '(' :: rest =>
    if rest.take propertyWord.length = propertyWord then
      let r2 := rest.drop propertyWord.length
      if (r2.takeWhile isPySpace).isEmpty then none
      else
        match r2.dropWhile isPySpace with
        | '"' :: r3 =>
          if r3.take key.length = key then
            match r3.drop key.length with
            | '"' :: r4 =>
              if (r4.takeWhile isPySpace).isEmpty then none
              else
                match r4.dropWhile isPySpace with
                | '"' :: r5 =>
                  let v := r5.takeWhile (fun c => c ≠ '"')
                  match r5.dropWhile (fun c => c ≠ '"') with
                  | '"' :: _ => some v
                  | _ => none
                | _ => none
            | _ => none
          else none
        | _ => none
    else none
  | _ => none

/-- Python `re.search` for the property pattern: leftmost match wins. -/
def searchPropVal (key : List Char) : List Char → Option (List Char)
  | [] => none
  | c :: s =>
    match matchPropValAt key (c :: s) with
    | some v => some v
    | none => searchPropVal key s

/-- Match `TAB(symbol` `\s+` QUOTE name QUOTE (the body of the multiline
regex `^TAB(symbol\s+"([^"]+)"`) at the start of `s`; returns the captured
name together with the number of characters the match consumes. -/
def matchSymbolDeclAt (s : List Char) : Option (List Char × Nat) :=
  if s.take symbolHead.length = symbolHead then
    if ((s.drop symbolHead.length).takeWhile isPySpace).isEmpty then none
    else
      match (s.drop symbolHead.length).dropWhile isPySpace with
      | '"' :: r2 =>
        if (r2.takeWhile (fun c => c ≠ '"')).isEmpty then none
        else
          match r2.dropWhile (fun c => c ≠ '"') with
          | '"' :: _ =>
            some (r2.takeWhile (fun c => c ≠ '"'),
              symbolHead.length + ((s.drop symbolHead.length).takeWhile isPySpace).length
                + 1 + (r2.takeWhile (fun c => c ≠ '"')).length + 1)
          | _ => none
      | _ => none
  else none

/-- A successful symbol declaration match consumes at least one character. -/
theorem matchSymbolDeclAt_pos {s : List Char} {nm : List Char} {len : Nat}
    (h : matchSymbolDeclAt s = some (nm, len)) : 0 < len := by
  unfold matchSymbolDeclAt at h
  repeat' split at h
  all_goals simp_all
  all_goals omega

/-- Match the headless pattern `TAB(symbol\s+"` (used by the second regex,
which only delimits the next block and captures nothing). -/
def matchDeclHead (s : List Char) : Bool :=
  if s.take symbolHead.length = symbolHead then
    let r := s.drop symbolHead.length
    if (r.takeWhile isPySpace).isEmpty then false
    else
      match r.dropWhile isPySpace with
      | '"' :: _ => true
      | _ => false
  else false

/-- Position `pos` starts a line of `content` (start of string or preceded
by a newline) — where the multiline anchor `^` matches. -/
def isLineStartAt (content : List Char) (pos : Nat) : Bool :=
  pos = 0 || content.getD (pos - 1) ' ' = '\n'

/-- Fuel-bounded model of `re.finditer` for the anchored declaration regex:
scan from `pos` for line-start positions where the declaration matches,
collecting (name, match start, match end) for every non-overlapping match.
Every step advances the position by at least one (a successful match
consumes at least one character, `matchSymbolDeclAt_pos`), so fuel
`content.length + 1` never runs out. -/
def findDeclsFromAux (content : List Char) : Nat → Nat → List (List Char × Nat × Nat)
  | 0, _ => []
  | fuel + 1, pos =>
    if pos < content.length then
      if isLineStartAt content pos then
        match matchSymbolDeclAt (content.drop pos) with
        | some p => (p.1, pos, pos + p.2) :: findDeclsFromAux content fuel (pos + p.2)
        | none => findDeclsFromAux content fuel (pos + 1)
      else findDeclsFromAux content fuel (pos + 1)
    else []

/-- All non-overlapping declaration matches of the multiline regex from
position `pos`. -/
def findDeclsFrom (content : List Char) (pos : Nat) : List (List Char × Nat × Nat) :=
  findDeclsFromAux content (content.length + 1) pos

/-- Fuel-bounded model of `re.search` for the next-declaration pattern
inside the slice `content[sliceStart:]`: the multiline anchor matches at
the start of the slice or after a newline. -/
def findNextDeclHeadAux (content : List Char) (sliceStart : Nat) :
    Nat → Nat → Option Nat
  | 0, _ => none
  | fuel + 1, pos =>
    if pos < content.length then
      if (pos = sliceStart || isLineStartAt content pos) &&
          matchDeclHead (content.drop pos) then
        some pos
      else findNextDeclHeadAux content sliceStart fuel (pos + 1)
    else none

/-- Absolute position of the next top-level declaration head at or after
`sliceStart`, if any. -/
def findNextDeclHead (content : List Char) (sliceStart : Nat) : Option Nat :=
  findNextDeclHeadAux content sliceStart (content.length + 1) sliceStart

/-- Regex `_DIGITS_DIGITS$` (pattern `_ \d+ _ \d+` anchored at the end):
the name ends with an underscore, one or more digits, an underscore, and one
or more digits.  Checked by scanning the reversed name. -/
def isSubUnitName (name : List Char) : Bool :=
  let r := name.reverse
  let d2 := r.takeWhile Char.isDigit
  if d2.isEmpty then false
  else
    match r.dropWhile Char.isDigit with
    | '_' :: r3 =>
      let d1 := r3.takeWhile Char.isDigit
      if d1.isEmpty then false
      else
        match r3.dropWhile Char.isDigit with
        | '_' :: _ => true
        | _ => false
    | _ => false

/-- Python `os.path.splitext(basename)[0]` for a basename that ends in
`.kicad_sym`: strip the extension unless the dot belongs to a leading run of
dots (hidden files such as a bare `.kicad_sym` keep their full name). -/
def fileStem (n : List Char) : List Char :=
  let stem := n.take (n.length - kicadSymSuffix.length)
  if stem.all (fun c => c = '.') then n else stem

/-! ## File parsers -/

/-- Result of `_parse_kicad_mod` (name may be empty; the rebuild loop applies
the filename fallback). -/
structure FpMeta where
  name : List Char
  description : List Char
  tags : List Char
  pad_count : Nat
deriving DecidableEq

/-- Translation of `_parse_kicad_mod`, applied to the file's text.  The
source anchors the name pattern at the start of the file (`re.match`, value
`[^"]+`), searches anywhere for the first `descr` and `tags` fields (value
`[^"]*`), and counts pad declarations. -/
def parseKicadMod (content : List Char) : FpMeta :=
  { name := (matchTagValAt footprintWord true content).getD []
    description := (searchTagVal descrWord false content).getD []
    tags := (searchTagVal tagsWord false content).getD []
    pad_count := countTag padWord content }

/-- One record produced by `_parse_kicad_sym` for a top-level symbol. -/
structure SymbolMeta where
  name : List Char
  library : List Char
  description : List Char
  keywords : List Char
  pin_count : Nat
deriving DecidableEq

/-- Translation of `_parse_kicad_sym`, applied to the library stem (the
source computes it from the file path) and the file's text: every top-level
declaration found by the multiline regex whose name is not a sub-unit name
yields a record; the record's description, keywords and pin count are
extracted from the text span running from the declaration to the next
top-level declaration head (or end of file). -/
def parseKicadSym (library : List Char) (content : List Char) : List SymbolMeta :=
  (findDeclsFrom content 0).filterMap (fun d =>
    if isSubUnitName d.1 then none
    else
      some { name := d.1
             library := library
             description :=
               (searchPropVal descriptionKey
                 ((content.take ((findNextDeclHead content d.2.2).getD content.length)).drop
                   d.2.1)).getD []
             keywords :=
               (searchPropVal keywordsKey
                 ((content.take ((findNextDeclHead content d.2.2).getD content.length)).drop
                   d.2.1)).getD []
             pin_count :=
               countTag pinWord
                 ((content.take ((findNextDeclHead content d.2.2).getD content.length)).drop
                   d.2.1) })

/-! ## Filesystem model

`os.scandir` of a library root yields directory entries; each entry has a
name, a directory flag, and a modification time.  For a `.pretty` directory
we also keep the contained footprint files, each with its own name,
modification time and text.  On the modelled OS (as on POSIX), writing to an
existing file updates that file's mtime but not the mtime of the directory
that contains it; the two fields are therefore independent. -/

/-- A footprint file inside a `.pretty` directory. -/
structure FpFile where
  name : List Char
  mtime : Nat
  content : List Char
deriving DecidableEq

/-- A direct child of a library root, as seen by `os.scandir`. -/
structure RootEntry where
  name : List Char
  isDir : Bool
  mtime : Nat
  files : List FpFile
  content : List Char
deriving DecidableEq

/-- The operating system kind returned by `platform.system()`. -/
inductive OSKind
  | darwin
  | linux
  | windows
  | other
deriving DecidableEq

/-- The process environment and filesystem visible to the index: environment
variables, OS kind, directory-existence tests, and directory listings. -/
structure Sys where
  env : List Char → Option (List Char)
  system : OSKind
  isdir : List Char → Bool
  entries : List Char → List RootEntry

/-! ## Store model

The SQLite store is a single file holding the `metadata` key/value table
plus, per family, a primary table and an FTS mirror.  A table that has not
been created yet is `none`.  Metadata values are written with `str(...)` and
timestamps are read back with `float(...)`; we model the serialisation
round-trip with a tagged value: numeric strings parse, path strings make
`float` raise `ValueError` (which `_is_stale` catches as stale). -/

/-- A metadata value: a path string or a numeric string (timestamp/count). -/
inductive MetaVal
  | str (s : List Char)
  | num (n : Nat)
deriving DecidableEq

/-- A row of the `footprints` table. -/
structure FpRow where
  id : Nat
  library : List Char
  name : List Char
  description : List Char
  tags : List Char
  pad_count : Nat
deriving DecidableEq

/-- A row of the `footprints_fts` table (content mirror keyed by rowid). -/
structure FpFtsRow where
  rowid : Nat
  library : List Char
  name : List Char
  description : List Char
  tags : List Char
deriving DecidableEq

/-- A row of the `symbols` table. -/
structure SymRow where
  id : Nat
  library : List Char
  name : List Char
  lib_id : List Char
  description : List Char
  keywords : List Char
  pin_count : Nat
deriving DecidableEq

/-- A row of the `symbols_fts` table (content mirror keyed by rowid). -/
structure SymFtsRow where
  rowid : Nat
  library : List Char
  name : List Char
  lib_id : List Char
  description : List Char
  keywords : List Char
deriving DecidableEq

/-- Contents of the store file.  `hasMetadata` records whether the
`metadata` table exists (`_ensure_tables` creates it non-destructively). -/
structure DB where
  hasMetadata : Bool
  metadata : List (List Char × MetaVal)
  footprints : Option (List FpRow)
  footprints_fts : Option (List FpFtsRow)
  symbols : Option (List SymRow)
  symbols_fts : Option (List SymFtsRow)
deriving DecidableEq

/-- `SELECT value FROM metadata WHERE key = ?`. -/
def lookupMeta (m : List (List Char × MetaVal)) (key : List Char) : Option MetaVal :=
  (m.find? (fun kv => decide (kv.1 = key))).map (fun kv => kv.2)

/-- `INSERT OR REPLACE INTO metadata (key, value) VALUES (?, ?)`
(`LibraryIndex._set_meta`). -/
def setMeta (m : List (List Char × MetaVal)) (key : List Char) (v : MetaVal) :
    List (List Char × MetaVal) :=
  (key, v) :: m.filter (fun kv => !decide (kv.1 = key))

/-! ## Library path resolution -/

/-- The macOS shared-support directory probed by `_get_kicad_share_path`. -/
def darwinShare : List Char := "/Applications/KiCad/KiCad.app/Contents/SharedSupport".toList

/-- First Linux share directory probed. -/
def linuxShare1 : List Char := "/usr/share/kicad".toList

/-- Second Linux share directory probed. -/
def linuxShare2 : List Char := "/usr/local/share/kicad".toList

/-- The Windows share directory probed. -/
def windowsShare : List Char := "C:\\Program Files\\KiCad\\share\\kicad".toList

/-- Environment variable overriding the footprint library root. -/
def footprintDirEnvKey : List Char := "KICAD_FOOTPRINT_DIR".toList

/-- Environment variable overriding the symbol library root. -/
def symbolDirEnvKey : List Char := "KICAD_SYMBOL_DIR".toList

/-- Subdirectory of the share path holding footprint libraries. -/
def footprintsWord : List Char := "footprints".toList

/-- Subdirectory of the share path holding symbol libraries. -/
def symbolsWord : List Char := "symbols".toList

/-- Path join; the claims settled here only exercise POSIX-style paths, so a
single forward-slash join models `os.path.join` faithfully. -/
def joinPath (a b : List Char) : List Char := a ++ '/' :: b

/-- Translation of `_get_kicad_share_path`. -/
def getKicadSharePath (sys : Sys) : Option (List Char) :=
  match sys.system with
  | OSKind.darwin => if sys.isdir darwinShare then some darwinShare else none
  | OSKind.linux =>
    if sys.isdir linuxShare1 then some linuxShare1
    else if sys.isdir linuxShare2 then some linuxShare2
    else none
  | OSKind.windows => if sys.isdir windowsShare then some windowsShare else none
  | OSKind.other => none

/-- Translation of `_get_footprint_lib_path`: environment override if set,
non-empty and an existing directory; otherwise the `footprints` subdirectory
of the share path if it exists; otherwise unresolved. -/
def getFootprintLibPath (sys : Sys) : Option (List Char) :=
  if pyTruthy (sys.env footprintDirEnvKey) &&
      sys.isdir ((sys.env footprintDirEnvKey).getD []) then
    sys.env footprintDirEnvKey
  else
    match getKicadSharePath sys with
    | some share =>
      if sys.isdir (joinPath share footprintsWord) then some (joinPath share footprintsWord)
      else none
    | none => none

/-- Translation of `_get_symbol_lib_path`. -/
def getSymbolLibPath (sys : Sys) : Option (List Char) :=
  if pyTruthy (sys.env symbolDirEnvKey) &&
      sys.isdir ((sys.env symbolDirEnvKey).getD []) then
    sys.env symbolDirEnvKey
  else
    match getKicadSharePath sys with
    | some share =>
      if sys.isdir (joinPath share symbolsWord) then some (joinPath share symbolsWord)
      else none
    | none => none

/-- The `LibraryIndex` object state: the two library-root paths resolved at
construction and stored on the instance. -/
structure LibraryIndex where
  footprint_lib_path : Option (List Char)
  symbol_lib_path : Option (List Char)
deriving DecidableEq

/-- Translation of `LibraryIndex.__init__`: each root is the constructor
argument if truthy, otherwise the result of running the resolver once at
construction time.  The resolved value is cached on the instance. -/
def LibraryIndex.init (sys : Sys) (fpArg symArg : Option (List Char)) : LibraryIndex :=
  { footprint_lib_path := if pyTruthy fpArg then fpArg else getFootprintLibPath sys
    symbol_lib_path := if pyTruthy symArg then symArg else getSymbolLibPath sys }

/-! ## Staleness detection -/

/-- The unit-of-change test inside `_is_stale`'s scan loop: a `*.pretty`
directory for the footprint family, a suffix-matching plain file for any
other suffix (symbols use `*.kicad_sym`). -/
def isUnitEntry (suffix : List Char) (e : RootEntry) : Bool :=
  if suffix = prettySuffix then suffix.isSuffixOf e.name && e.isDir
  else suffix.isSuffixOf e.name && !e.isDir

/-- Translation of `LibraryIndex._is_stale`.  `db = none` models a missing
store file.  Returns `true` if the store file is missing, the `metadata`
table is missing, the build-time key is missing or does not parse as a
float, the recorded path key is missing or differs from `libPath`, or some
unit entry under the root has a modification time strictly greater than the
recorded build time. -/
def isStale (db : Option DB) (timeKey pathKey libPath suffix : List Char)
    (entries : List RootEntry) : Bool :=
  match db with
  | none => true
  | some d =>
    if !d.hasMetadata then true
    else
      match lookupMeta d.metadata timeKey with
      | none => true
      | some (MetaVal.str _) => true
      | some (MetaVal.num buildTime) =>
        match lookupMeta d.metadata pathKey with
        | none => true
        | some v =>
          if v ≠ MetaVal.str libPath then true
          else
            entries.any (fun e => isUnitEntry suffix e && decide (buildTime < e.mtime))

/-- Translation of `LibraryIndex.footprints_stale`: stale when the cached
footprint root is `None` or empty or not currently a directory, otherwise
defer to the generic staleness check over that root's entries. -/
def footprintsStale (idx : LibraryIndex) (sys : Sys) (db : Option DB) : Bool :=
  match idx.footprint_lib_path with
  | none => true
  | some p =>
    if p.isEmpty then true
    else if !sys.isdir p then true
    else isStale db fpBuildTimeKey fpLibPathKey p prettySuffix (sys.entries p)

/-- Translation of `LibraryIndex.symbols_stale`. -/
def symbolsStale (idx : LibraryIndex) (sys : Sys) (db : Option DB) : Bool :=
  match idx.symbol_lib_path with
  | none => true
  | some p =>
    if p.isEmpty then true
    else if !sys.isdir p then true
    else isStale db symBuildTimeKey symLibPathKey p kicadSymSuffix (sys.entries p)

/-! ## Rebuild pipeline

`rebuild_footprints` / `rebuild_symbols` run, in order: the root check
(raising `RuntimeError` when the root is unresolved or not a directory);
`DROP TABLE` and `CREATE TABLE` for the family's primary and FTS tables;
the enumeration/parse/insert loop; the bulk FTS population; the three
metadata writes; `commit`.

Persistence semantics: Python's `sqlite3` module in its default
(legacy autocommit) mode implicitly opens a transaction only before DML
statements; the `DROP`/`CREATE` statements execute with no transaction open
and are therefore committed immediately, while the inserts and metadata
writes are committed only by the final `commit()`.  Consequently a failure
after the DDL but before `commit` (for example `os.scandir` raising
`OSError`, which nothing catches) leaves the store with the family's tables
dropped and recreated empty and the metadata unchanged.  `scanFails`
injects exactly that failure. -/

/-- Concatenation of per-element lists, in order (the nested loop body of
the rebuild pipelines). -/
def collect (f : α → List β) : List α → List β
  | [] => []
  | x :: xs => f x ++ collect f xs

/-- A footprint record before row ids are assigned. -/
structure FpPre where
  library : List Char
  name : List Char
  description : List Char
  tags : List Char
  pad_count : Nat
deriving DecidableEq

/-- The records produced by the footprint rebuild loop: for every `*.pretty`
directory entry (library name = entry name minus the suffix), for every
`*.kicad_mod` file in it, the parsed metadata, with the file name (minus its
suffix) as fallback when no name was parsed. -/
def fpPresFromFs (entries : List RootEntry) : List FpPre :=
  collect (fun d =>
    if prettySuffix.isSuffixOf d.name && d.isDir then
      collect (fun f =>
        if kicadModSuffix.isSuffixOf f.name then
          [{ library := d.name.take (d.name.length - prettySuffix.length)
             name :=
               if (parseKicadMod f.content).name.isEmpty then
                 f.name.take (f.name.length - kicadModSuffix.length)
               else (parseKicadMod f.content).name
             description := (parseKicadMod f.content).description
             tags := (parseKicadMod f.content).tags
             pad_count := (parseKicadMod f.content).pad_count }]
        else []) d.files
    else []) entries

/-- Rows of the rebuilt `footprints` table; `INTEGER PRIMARY KEY` assigns
ids 1, 2, ... in insertion order. -/
def fpRowsFromFs (entries : List RootEntry) : List FpRow :=
  (withIdx 0 (fpPresFromFs entries)).map (fun p =>
    { id := p.1 + 1, library := p.2.library, name := p.2.name,
      description := p.2.description, tags := p.2.tags, pad_count := p.2.pad_count })

/-- The bulk `INSERT INTO footprints_fts ... SELECT ... FROM footprints`. -/
def fpToFts (r : FpRow) : FpFtsRow :=
  { rowid := r.id, library := r.library, name := r.name,
    description := r.description, tags := r.tags }

/-- The records produced by the symbol rebuild loop: every `*.kicad_sym`
entry is parsed (a directory with that suffix makes `open` raise `OSError`,
which the parser catches by returning no records). -/
def symPresFromFs (entries : List RootEntry) : List SymbolMeta :=
  collect (fun e =>
    if kicadSymSuffix.isSuffixOf e.name then
      if e.isDir then [] else parseKicadSym (fileStem e.name) e.content
    else []) entries

/-- Rows of the rebuilt `symbols` table, with `lib_id = library:name`. -/
def symRowsFromFs (entries : List RootEntry) : List SymRow :=
  (withIdx 0 (symPresFromFs entries)).map (fun p =>
    { id := p.1 + 1, library := p.2.library, name := p.2.name,
      lib_id := p.2.library ++ colon ++ p.2.name,
      description := p.2.description, keywords := p.2.keywords,
      pin_count := p.2.pin_count })

/-- Outcome of a rebuild call: whether an exception propagated, the store
contents on disk after the call, and the returned count (when any). -/
structure RebuildOutcome where
  raised : Bool
  persisted : DB
  count : Option Nat
deriving DecidableEq

/-- Translation of `rebuild_footprints`.  `d0` is the store contents at call
time (the store file exists; `__init__` created it). -/
def rebuildFootprints (fpPath : Option (List Char)) (sys : Sys) (d0 : DB)
    (scanFails : Bool) (now : Nat) : RebuildOutcome :=
  match fpPath with
  | none => { raised := true, persisted := d0, count := none }
  | some p =>
    if p.isEmpty || !sys.isdir p then { raised := true, persisted := d0, count := none }
    else
      if scanFails then
        { raised := true
          persisted := { d0 with footprints := some [], footprints_fts := some [] }
          count := none }
      else if !d0.hasMetadata then
        { raised := true
          persisted := { d0 with footprints := some [], footprints_fts := some [] }
          count := none }
      else
        { raised := false
          persisted :=
            { d0 with
              footprints := some (fpRowsFromFs (sys.entries p))
              footprints_fts := some ((fpRowsFromFs (sys.entries p)).map fpToFts)
              metadata :=
                setMeta
                  (setMeta (setMeta d0.metadata fpBuildTimeKey (MetaVal.num now))
                    fpLibPathKey (MetaVal.str p))
                  fpCountKey (MetaVal.num (fpRowsFromFs (sys.entries p)).length) }
          count := some (fpRowsFromFs (sys.entries p)).length }

/-- The bulk `INSERT INTO symbols_fts ... SELECT ... FROM symbols`. -/
def symToFts (r : SymRow) : SymFtsRow :=
  { rowid := r.id, library := r.library, name := r.name, lib_id := r.lib_id,
    description := r.description, keywords := r.keywords }

/-- Translation of `rebuild_symbols`. -/
def rebuildSymbols (symPath : Option (List Char)) (sys : Sys) (d0 : DB)
    (scanFails : Bool) (now : Nat) : RebuildOutcome :=
  match symPath with
  | none => { raised := true, persisted := d0, count := none }
  | some p =>
    if p.isEmpty || !sys.isdir p then { raised := true, persisted := d0, count := none }
    else
      if scanFails then
        { raised := true
          persisted := { d0 with symbols := some [], symbols_fts := some [] }
          count := none }
      else if !d0.hasMetadata then
        { raised := true
          persisted := { d0 with symbols := some [], symbols_fts := some [] }
          count := none }
      else
        { raised := false
          persisted :=
            { d0 with
              symbols := some (symRowsFromFs (sys.entries p))
              symbols_fts := some ((symRowsFromFs (sys.entries p)).map symToFts)
              metadata :=
                setMeta
                  (setMeta (setMeta d0.metadata symBuildTimeKey (MetaVal.num now))
                    symLibPathKey (MetaVal.str p))
                  symCountKey (MetaVal.num (symRowsFromFs (sys.entries p)).length) }
          count := some (symRowsFromFs (sys.entries p)).length }

/-! ## Query engine

`search_footprints` / `search_symbols` return `[]` for a blank query before
touching storage; they then build the FTS expression, connect (outside the
`try` block — a connection error propagates), and run a join of the FTS
table with the primary table, filtered by `MATCH` (and `library =` when a
truthy filter was passed), ordered by the engine's rank, capped at `limit`.
The `except` clause catches only `sqlite3.OperationalError` raised while
executing the query (malformed FTS syntax, missing tables): that case is
logged and yields `[]`.  Any other exception raised by the execute/fetch —
for example `sqlite3.DatabaseError` for a corrupt or not-a-database cache
file, which SQLite surfaces lazily at the first statement — is NOT caught
and propagates.  FTS5 matching and ranking live in the storage engine; the
model takes them as abstract functions of the built expression and the
row. -/

/-- Outcome of executing the search statement against the storage engine:
success, a raised `sqlite3.OperationalError` (the only class the `except`
clause catches), or any other raised exception (for example a
non-operational `sqlite3.DatabaseError` from a corrupt store), which
nothing catches. -/
inductive ExecOutcome
  | ok
  | opErr
  | otherErr
deriving DecidableEq

/-- Error-injection points and engine behavior for a search call. -/
structure SearchEnv where
  connectErr : Bool
  execErr : ExecOutcome
  fpMatch : List Char → FpFtsRow → Bool
  fpRank : List Char → FpFtsRow → Int
  symMatch : List Char → SymFtsRow → Bool
  symRank : List Char → SymFtsRow → Int

/-- Observable outcome of a search call: a returned list (with a flag
recording whether storage was touched) or a propagated exception. -/
inductive SearchOutcome (α : Type)
  | returned (results : List α) (touchedStore : Bool)
  | raised
deriving DecidableEq

/-- A footprint search result (denormalized, with `full_name`). -/
structure FpResult where
  library : List Char
  name : List Char
  full_name : List Char
  description : List Char
  tags : List Char
  pad_count : Nat
deriving DecidableEq

/-- A symbol search result. -/
structure SymResult where
  lib_id : List Char
  name : List Char
  library : List Char
  description : List Char
  keywords : List Char
  pin_count : Nat
deriving DecidableEq

/-- Insert into a list sorted by an integer key (ascending). -/
def insertByKey (k : α → Int) (x : α) : List α → List α
  | [] => [x]
  | y :: ys => if k x ≤ k y then x :: y :: ys else y :: insertByKey k x ys

/-- Sort by an integer key, ascending (`ORDER BY rank`). -/
def sortByKey (k : α → Int) : List α → List α
  | [] => []
  | x :: xs => insertByKey k x (sortByKey k xs)

/-- `JOIN footprints f ON f.id = fts.rowid`: each FTS row paired with the
matching primary rows. -/
def fpJoin (fts : List FpFtsRow) (prim : List FpRow) : List (FpFtsRow × FpRow) :=
  collect (fun ft => (prim.filter (fun f => decide (f.id = ft.rowid))).map (fun f => (ft, f))) fts

/-- `JOIN symbols s ON s.id = fts.rowid`. -/
def symJoin (fts : List SymFtsRow) (prim : List SymRow) : List (SymFtsRow × SymRow) :=
  collect (fun ft => (prim.filter (fun s => decide (s.id = ft.rowid))).map (fun s => (ft, s))) fts

/-- Translation of `search_footprints`. -/
def searchFootprints (q : List Char) (library : Option (List Char)) (limit : Nat)
    (env : SearchEnv) (db : DB) : SearchOutcome FpResult :=
  if q.isEmpty || (pyStrip q).isEmpty then SearchOutcome.returned [] false
  else if env.connectErr then SearchOutcome.raised
  else
    match env.execErr with
    | ExecOutcome.opErr => SearchOutcome.returned [] true
    | ExecOutcome.otherErr => SearchOutcome.raised
    | ExecOutcome.ok =>
    match db.footprints_fts, db.footprints with
    | some fts, some prim =>
      SearchOutcome.returned
        (((sortByKey (fun r => env.fpRank (buildFtsQuery q) r.1)
            (((fpJoin fts prim).filter
                (fun r => env.fpMatch (buildFtsQuery q) r.1)).filter
              (fun r =>
                match library with
                | some lib => if lib.isEmpty then true else decide (r.2.library = lib)
                | none => true))).take limit).map
          (fun r =>
            { library := r.2.library, name := r.2.name,
              full_name := r.2.library ++ colon ++ r.2.name,
              description := r.2.description, tags := r.2.tags,
              pad_count := r.2.pad_count })) true
    | _, _ => SearchOutcome.returned [] true

/-- Translation of `search_symbols`. -/
def searchSymbols (q : List Char) (library : Option (List Char)) (limit : Nat)
    (env : SearchEnv) (db : DB) : SearchOutcome SymResult :=
  if q.isEmpty || (pyStrip q).isEmpty then SearchOutcome.returned [] false
  else if env.connectErr then SearchOutcome.raised
  else
    match env.execErr with
    | ExecOutcome.opErr => SearchOutcome.returned [] true
    | ExecOutcome.otherErr => SearchOutcome.raised
    | ExecOutcome.ok =>
    match db.symbols_fts, db.symbols with
    | some fts, some prim =>
      SearchOutcome.returned
        (((sortByKey (fun r => env.symRank (buildFtsQuery q) r.1)
            (((symJoin fts prim).filter
                (fun r => env.symMatch (buildFtsQuery q) r.1)).filter
              (fun r =>
                match library with
                | some lib => if lib.isEmpty then true else decide (r.2.library = lib)
                | none => true))).take limit).map
          (fun r =>
            { lib_id := r.2.lib_id, name := r.2.name, library := r.2.library,
              description := r.2.description, keywords := r.2.keywords,
              pin_count := r.2.pin_count })) true
    | _, _ => SearchOutcome.returned [] true

/-! ## Helper lemmas -/

/-- Membership in a `collect` comes from membership in one of the pieces. -/
theorem mem_collect {f : α → List β} {b : β} :
    ∀ {l : List α}, b ∈ collect f l ↔ ∃ a ∈ l, b ∈ f a := by
  intro l
  induction l with
  | nil => simp [collect]
  | cons x xs ih =>
    simp only [collect, List.mem_append, ih, List.mem_cons]
    constructor
    · rintro (h | ⟨a, ha, hb⟩)
      · exact ⟨x, Or.inl rfl, h⟩
      · exact ⟨a, Or.inr ha, hb⟩
    · rintro ⟨a, ha | ha, hb⟩
      · exact Or.inl (ha ▸ hb)
      · exact Or.inr ⟨a, ha, hb⟩

/-- The payload of an indexed element is an element. -/
theorem snd_mem_of_mem_withIdx {p : Nat × α} :
    ∀ {i : Nat} {l : List α}, p ∈ withIdx i l → p.2 ∈ l := by
  intro i l
  induction l generalizing i with
  | nil => simp [withIdx]
  | cons x xs ih =>
    intro h
    simp only [withIdx, List.mem_cons] at h
    rcases h with h | h
    · simp [h]
    · exact List.mem_cons_of_mem _ (ih h)

/-- Insertion preserves membership. -/
theorem mem_insertByKey {k : α → Int} {x a : α} :
    ∀ {l : List α}, a ∈ insertByKey k x l ↔ a = x ∨ a ∈ l := by
  intro l
  induction l with
  | nil => simp [insertByKey]
  | cons y ys ih =>
    simp only [insertByKey]
    by_cases h : k x ≤ k y
    · simp [h]
    · simp only [h, if_false, List.mem_cons, ih]
      tauto

/-- Sorting preserves membership. -/
theorem mem_sortByKey {k : α → Int} {a : α} :
    ∀ {l : List α}, a ∈ sortByKey k l ↔ a ∈ l := by
  intro l
  induction l with
  | nil => simp [sortByKey]
  | cons x xs ih => simp [sortByKey, mem_insertByKey, ih]

/-- Reading back the key just written. -/
theorem lookupMeta_setMeta_self (m : List (List Char × MetaVal)) (k : List Char) (v : MetaVal) :
    lookupMeta (setMeta m k v) k = some v := by
  simp [lookupMeta, setMeta, List.find?]

/-- Writing one key does not disturb another. -/
theorem lookupMeta_setMeta_ne (m : List (List Char × MetaVal)) (k k' : List Char) (v : MetaVal)
    (h : k' ≠ k) : lookupMeta (setMeta m k v) k' = lookupMeta m k' := by
  simp only [lookupMeta, setMeta]
  rw [List.find?_cons_of_neg _ (by simp [Ne.symm h])]
  congr 1
  induction m with
  | nil => simp
  | cons kv m ih =>
    by_cases hk : kv.1 = k
    · rw [List.filter_cons_of_neg (by simp [hk])]
      rw [List.find?_cons_of_neg _ (by simp only [hk, decide_eq_true_eq]; exact Ne.symm h)]
      exact ih
    · rw [List.filter_cons_of_pos (by simp [hk])]
      by_cases hk' : kv.1 = k'
      · rw [List.find?_cons_of_pos _ (by simp [hk']), List.find?_cons_of_pos _ (by simp [hk'])]
      · rw [List.find?_cons_of_neg _ (by simp [hk']), List.find?_cons_of_neg _ (by simp [hk'])]
        exact ih

/-- Quote escaping is the per-character substitution that doubles every
double-quote and keeps every other character. -/
theorem escapeQuotes_eq_collect (t : List Char) :
    escapeQuotes t = collect (fun c => if c = '"' then ['"', '"'] else [c]) t := by
  induction t with
  | nil => rfl
  | cons c cs ih =>
    by_cases h : c = '"' <;> simp [escapeQuotes, collect, h, ih]

/-- Splitting ignores leading whitespace. -/
theorem pySplitAux_dropWhile (s : List Char) :
    pySplitAux (s.dropWhile isPySpace) [] = pySplitAux s [] := by
  induction s with
  | nil => rfl
  | cons c cs ih =>
    by_cases h : isPySpace c
    · rw [List.dropWhile_cons_of_pos h, ih]
      simp [pySplitAux, h, List.isEmpty]
    · rw [List.dropWhile_cons_of_neg (by simp [h])]

/-- Splitting an all-whitespace string yields no terms. -/
theorem pySplitAux_spaces (t : List Char) (ht : ∀ c ∈ t, isPySpace c = true) :
    pySplitAux t [] = [] := by
  induction t with
  | nil => rfl
  | cons c cs ih =>
    have hc : isPySpace c = true := ht c (List.mem_cons_self _ _)
    simp only [pySplitAux, hc, if_true, List.isEmpty]
    exact ih (fun d hd => ht d (List.mem_cons_of_mem _ hd))

/-- Splitting ignores trailing whitespace. -/
theorem pySplitAux_append_spaces (s t : List Char) (ht : ∀ c ∈ t, isPySpace c = true) :
    ∀ acc, pySplitAux (s ++ t) acc = pySplitAux s acc := by
  induction s with
  | nil =>
    intro acc
    simp only [List.nil_append]
    cases t with
    | nil => rfl
    | cons c cs =>
      have hc : isPySpace c = true := ht c (List.mem_cons_self _ _)
      have hcs : ∀ d ∈ cs, isPySpace d = true := fun d hd => ht d (List.mem_cons_of_mem _ hd)
      by_cases ha : acc.isEmpty <;>
        simp [pySplitAux, hc, ha, pySplitAux_spaces cs hcs]
  | cons c cs ih =>
    intro acc
    by_cases h : isPySpace c
    · by_cases ha : acc.isEmpty <;> simp [pySplitAux, h, ha, ih]
    · simp [pySplitAux, h, ih]

/-- Stripping first does not change the split (Python's `split()` already
ignores surrounding whitespace). -/
theorem pySplit_pyStrip (q : List Char) : pySplit (pyStrip q) = pySplit q := by
  unfold pySplit pyStrip
  set u := q.dropWhile isPySpace with hu
  have hdecomp : u = (u.reverse.dropWhile isPySpace).reverse ++
      (u.reverse.takeWhile isPySpace).reverse := by
    have := List.takeWhile_append_dropWhile (p := isPySpace) (l := u.reverse)
    calc u = u.reverse.reverse := by rw [List.reverse_reverse]
    _ = (u.reverse.takeWhile isPySpace ++ u.reverse.dropWhile isPySpace).reverse := by rw [this]
    _ = _ := by rw [List.reverse_append]
  have hspaces : ∀ c ∈ (u.reverse.takeWhile isPySpace).reverse, isPySpace c = true := by
    intro c hc
    exact List.mem_takeWhile_imp (List.mem_reverse.mp hc)
  calc pySplitAux (u.reverse.dropWhile isPySpace).reverse []
      = pySplitAux ((u.reverse.dropWhile isPySpace).reverse ++
          (u.reverse.takeWhile isPySpace).reverse) [] := by
        rw [pySplitAux_append_spaces _ _ hspaces]
    _ = pySplitAux u [] := by rw [← hdecomp]
    _ = pySplitAux q [] := by rw [hu, pySplitAux_dropWhile]

/-- The indexed-loop construction of FTS tokens agrees with the structural
description: a star token exactly at the final position. -/
theorem withIdx_fts_tokens :
    ∀ (ts : List (List Char)) (i n : Nat), n + 1 = i + ts.length →
      (withIdx i ts).map (fun p => if p.1 = n then starTerm p.2 else quotedTerm p.2) =
        specFtsTokens ts := by
  intro ts
  induction ts with
  | nil => intro i n _; rfl
  | cons t ts ih =>
    intro i n hn
    cases ts with
    | nil =>
      simp only [withIdx, List.map, List.length_cons, List.length_nil] at hn ⊢
      have : i = n := by omega
      simp [this, specFtsTokens]
    | cons t' ts' =>
      have hne : ¬(i = n) := by
        simp only [List.length_cons] at hn
        omega
      have hrec := ih (i + 1) n (by simp only [List.length_cons] at hn ⊢; omega)
      calc (withIdx i (t :: t' :: ts')).map
            (fun p => if p.1 = n then starTerm p.2 else quotedTerm p.2)
          = (if i = n then starTerm t else quotedTerm t) ::
              (withIdx (i + 1) (t' :: ts')).map
                (fun p => if p.1 = n then starTerm p.2 else quotedTerm p.2) := rfl
        _ = quotedTerm t :: specFtsTokens (t' :: ts') := by rw [hrec, if_neg hne]
        _ = specFtsTokens (t :: t' :: ts') := rfl

/-! ## Claim theorems -/

/-- C7: for every non-empty query, the built full-text search expression is
obtained by splitting the query on whitespace into terms, doubling every
embedded double-quote character in each term, wrapping every term except the
last in quotes as an exact required token, wrapping the last term in quotes
with a trailing star as a type-ahead token, and joining the tokens with
single spaces; only the final term receives the star.  The code's
indexed-loop construction (`_build_fts_query`) equals this structural
description, and its quote escaping is the per-character doubling
substitution. -/
theorem claim_C7_fts_query (q : List Char) (hq : q ≠ []) :
    buildFtsQuery q = specFtsQuery q ∧
      (∀ t : List Char,
        escapeQuotes t = collect (fun c => if c = '"' then ['"', '"'] else [c]) t) := by
  refine ⟨?_, escapeQuotes_eq_collect⟩
  clear hq
  unfold buildFtsQuery specFtsQuery
  rw [pySplit_pyStrip]
  cases hts : pySplit q with
  | nil => rfl
  | cons t ts =>
    dsimp only
    rw [withIdx_fts_tokens (t :: ts) 0 ((t :: ts).length - 1)
      (by simp only [List.length_cons]; omega)]

/-- Witness for C7 at the query SOIC-8 (one term, so it becomes a single
star token). -/
theorem claim_C7_witness :
    ("SOIC-8").toList ≠ [] ∧
      buildFtsQuery ("SOIC-8").toList = specFtsQuery ("SOIC-8").toList ∧
      escapeQuotes ("a\"b").toList =
        collect (fun c => if c = '"' then ['"', '"'] else [c]) ("a\"b").toList :=
  ⟨by decide, (claim_C7_fts_query (("SOIC-8").toList) (by decide)).1,
    (claim_C7_fts_query (("SOIC-8").toList) (by decide)).2 (("a\"b").toList)⟩

/-- C10: passing an empty string as the library filter is the same as
passing no filter at all — Python's falsy test `if library:` selects the
unfiltered query for both, so results are not restricted to records whose
library is the empty string. -/
theorem claim_C10_empty_filter (q : List Char) (limit : Nat) (env : SearchEnv) (db : DB) :
    searchFootprints q (some []) limit env db = searchFootprints q none limit env db ∧
      searchSymbols q (some []) limit env db = searchSymbols q none limit env db := by
  constructor <;> rfl

/-- A family's library root is unresolved for a rebuild: the stored path is
`None`, or the empty string, or not currently a directory. -/
def unresolvedRoot (p : Option (List Char)) (sys : Sys) : Prop :=
  p = none ∨ ∃ q, p = some q ∧ (q = [] ∨ sys.isdir q = false)

/-- C4: for every family, a rebuild whose library root cannot be resolved
raises the explicit `RuntimeError`, returns no count, and leaves the store
exactly as it was — an unresolved root never produces a zero-item index. -/
theorem claim_C4_unresolved_root (fpPath symPath : Option (List Char)) (sys : Sys)
    (d0 : DB) (sf sf' : Bool) (now now' : Nat)
    (hfp : unresolvedRoot fpPath sys) (hsym : unresolvedRoot symPath sys) :
    rebuildFootprints fpPath sys d0 sf now =
      { raised := true, persisted := d0, count := none } ∧
    rebuildSymbols symPath sys d0 sf' now' =
      { raised := true, persisted := d0, count := none } := by
  constructor
  · rcases hfp with h | ⟨p, hp, hcase⟩
    · rw [h]; rfl
    · rw [hp]
      unfold rebuildFootprints
      rcases hcase with h1 | h1 <;> simp [h1]
  · rcases hsym with h | ⟨p, hp, hcase⟩
    · rw [h]; rfl
    · rw [hp]
      unfold rebuildSymbols
      rcases hcase with h1 | h1 <;> simp [h1]

/-- Witness for C4: both roots set to `None`. -/
theorem claim_C4_witness :
    rebuildFootprints none
        { env := fun _ => none, system := OSKind.linux,
          isdir := fun _ => false, entries := fun _ => [] }
        { hasMetadata := true, metadata := [], footprints := none,
          footprints_fts := none, symbols := none, symbols_fts := none } false 0 =
      { raised := true,
        persisted :=
          { hasMetadata := true, metadata := [], footprints := none,
            footprints_fts := none, symbols := none, symbols_fts := none },
        count := none } ∧
    rebuildSymbols none
        { env := fun _ => none, system := OSKind.linux,
          isdir := fun _ => false, entries := fun _ => [] }
        { hasMetadata := true, metadata := [], footprints := none,
          footprints_fts := none, symbols := none, symbols_fts := none } false 0 =
      { raised := true,
        persisted :=
          { hasMetadata := true, metadata := [], footprints := none,
            footprints_fts := none, symbols := none, symbols_fts := none },
        count := none } :=
  claim_C4_unresolved_root none none _ _ false false 0 0 (Or.inl rfl) (Or.inl rfl)

/-- A search environment where connecting to the store raises (for example
the cache file has become unreadable). -/
def envConnFail : SearchEnv :=
  { connectErr := true, execErr := ExecOutcome.ok,
    fpMatch := fun _ _ => true, fpRank := fun _ _ => 0,
    symMatch := fun _ _ => true, symRank := fun _ _ => 0 }

/-- A search environment where executing the FTS query raises
`sqlite3.OperationalError`. -/
def envQueryFail : SearchEnv :=
  { connectErr := false, execErr := ExecOutcome.opErr,
    fpMatch := fun _ _ => true, fpRank := fun _ _ => 0,
    symMatch := fun _ _ => true, symRank := fun _ _ => 0 }

/-- A search environment where executing the FTS query raises a storage
error that is not an `OperationalError` (for example `sqlite3.DatabaseError`
from a corrupt or not-a-database cache file, surfaced lazily at the first
statement). -/
def envDbFail : SearchEnv :=
  { connectErr := false, execErr := ExecOutcome.otherErr,
    fpMatch := fun _ _ => true, fpRank := fun _ _ => 0,
    symMatch := fun _ _ => true, symRank := fun _ _ => 0 }

/-- A search environment with a healthy store connection and engine. -/
def envPlain : SearchEnv :=
  { connectErr := false, execErr := ExecOutcome.ok,
    fpMatch := fun _ _ => true, fpRank := fun _ _ => 0,
    symMatch := fun _ _ => true, symRank := fun _ _ => 0 }

/-- A store with empty but existing tables. -/
def emptyStore : DB :=
  { hasMetadata := true, metadata := [], footprints := some [],
    footprints_fts := some [], symbols := some [], symbols_fts := some [] }

/-- C8 counterexample: `sqlite3.connect` runs before the `try` block, so a
storage error while opening the store propagates out of `search_*` instead
of being caught and turned into an empty list. -/
theorem claim_C8_counterexample :
    searchFootprints ("R").toList none 20 envConnFail emptyStore =
        SearchOutcome.raised ∧
      searchSymbols ("R").toList none 20 envConnFail emptyStore =
        SearchOutcome.raised := by
  constructor <;> rfl

/-- C8 amended: a blank query returns an empty list without touching the
store.  The one error class search contains is `sqlite3.OperationalError`
raised while executing the query (malformed FTS syntax from adversarial
input, missing tables): that case is caught, logged, and the call returns
an empty list; when the query executes without error the call never raises
either.  Every other storage error propagates to the caller: an error while
opening the connection (which the source runs before its `try` block), and
an execute-time exception outside `OperationalError` (such as a
non-operational `sqlite3.DatabaseError` from a corrupt cache file), which
the `except` clause does not match. -/
theorem claim_C8_error_containment (q : List Char) (library : Option (List Char))
    (limit : Nat) (env : SearchEnv) (db : DB) (hconn : env.connectErr = false) :
    ((pyStrip q).isEmpty = true →
      searchFootprints q library limit env db = SearchOutcome.returned [] false ∧
      searchSymbols q library limit env db = SearchOutcome.returned [] false) ∧
    (env.execErr = ExecOutcome.opErr → (pyStrip q).isEmpty = false →
      searchFootprints q library limit env db = SearchOutcome.returned [] true ∧
      searchSymbols q library limit env db = SearchOutcome.returned [] true) ∧
    (env.execErr = ExecOutcome.otherErr → (pyStrip q).isEmpty = false →
      searchFootprints q library limit env db = SearchOutcome.raised ∧
      searchSymbols q library limit env db = SearchOutcome.raised) ∧
    (env.execErr = ExecOutcome.ok →
      searchFootprints q library limit env db ≠ SearchOutcome.raised ∧
      searchSymbols q library limit env db ≠ SearchOutcome.raised) := by
  have hblank : (pyStrip q).isEmpty = true → q.isEmpty || (pyStrip q).isEmpty := by
    intro h; simp [h]
  have hq0 : q.isEmpty = true → (pyStrip q).isEmpty = true := by
    cases q <;> simp [pyStrip, List.isEmpty]
  have hbfalse : (pyStrip q).isEmpty = false → (q.isEmpty || (pyStrip q).isEmpty) = false := by
    intro hnb
    rcases hq : q.isEmpty with _ | _
    · simp [hq, hnb]
    · exact absurd (hq0 hq) (by simp [hnb])
  refine ⟨?_, ?_, ?_, ?_⟩
  · intro hbk
    constructor
    · unfold searchFootprints
      simp [hblank hbk]
    · unfold searchSymbols
      simp [hblank hbk]
  · intro hex hnb
    constructor
    · unfold searchFootprints
      simp [hbfalse hnb, hconn, hex]
    · unfold searchSymbols
      simp [hbfalse hnb, hconn, hex]
  · intro hex hnb
    constructor
    · unfold searchFootprints
      simp [hbfalse hnb, hconn, hex]
    · unfold searchSymbols
      simp [hbfalse hnb, hconn, hex]
  · intro hex
    constructor
    · unfold searchFootprints
      by_cases hb : q.isEmpty || (pyStrip q).isEmpty
      · simp [hb]
      · simp only [hb, Bool.false_eq_true, if_false, hconn, Bool.false_eq_true, if_false, hex]
        cases db.footprints_fts <;> cases db.footprints <;> simp
    · unfold searchSymbols
      by_cases hb : q.isEmpty || (pyStrip q).isEmpty
      · simp [hb]
      · simp only [hb, Bool.false_eq_true, if_false, hconn, Bool.false_eq_true, if_false, hex]
        cases db.symbols_fts <;> cases db.symbols <;> simp

/-- Witness for C8 amended: a caught operational error on a non-blank query
returns an empty list; an uncaught execute-time storage error propagates; a
healthy engine never raises; a blank query returns an empty list without
touching the store. -/
theorem claim_C8_witness :
    searchFootprints ("R").toList none 20 envQueryFail emptyStore =
        SearchOutcome.returned [] true ∧
      searchSymbols ("R").toList none 20 envQueryFail emptyStore =
        SearchOutcome.returned [] true ∧
      searchFootprints ("R").toList none 20 envDbFail emptyStore =
        SearchOutcome.raised ∧
      searchSymbols ("R").toList none 20 envDbFail emptyStore =
        SearchOutcome.raised ∧
      searchFootprints ("R").toList none 20 envPlain emptyStore ≠
        SearchOutcome.raised ∧
      searchSymbols ("R").toList none 20 envPlain emptyStore ≠
        SearchOutcome.raised ∧
      searchFootprints ("  ").toList none 20 envQueryFail emptyStore =
        SearchOutcome.returned [] false ∧
      searchSymbols ("  ").toList none 20 envQueryFail emptyStore =
        SearchOutcome.returned [] false :=
  ⟨((claim_C8_error_containment (("R").toList) none 20 envQueryFail emptyStore rfl).2.1
      rfl (by decide)).1,
    ((claim_C8_error_containment (("R").toList) none 20 envQueryFail emptyStore rfl).2.1
      rfl (by decide)).2,
    ((claim_C8_error_containment (("R").toList) none 20 envDbFail emptyStore rfl).2.2.1
      rfl (by decide)).1,
    ((claim_C8_error_containment (("R").toList) none 20 envDbFail emptyStore rfl).2.2.1
      rfl (by decide)).2,
    ((claim_C8_error_containment (("R").toList) none 20 envPlain emptyStore rfl).2.2.2
      rfl).1,
    ((claim_C8_error_containment (("R").toList) none 20 envPlain emptyStore rfl).2.2.2
      rfl).2,
    ((claim_C8_error_containment (("  ").toList) none 20 envQueryFail emptyStore rfl).1
      (by decide)).1,
    ((claim_C8_error_containment (("  ").toList) none 20 envQueryFail emptyStore rfl).1
      (by decide)).2⟩

/-- Characterization of `_is_stale` on an existing store: not stale exactly
when the metadata table exists, the build-time key holds a parsable
timestamp, the recorded path equals the checked root, and no unit entry
directly under the root is newer than the recorded timestamp. -/
theorem isStale_some_eq_false_iff (d : DB) (timeKey pathKey libPath suffix : List Char)
    (entries : List RootEntry) :
    isStale (some d) timeKey pathKey libPath suffix entries = false ↔
      d.hasMetadata = true ∧
        ∃ t, lookupMeta d.metadata timeKey = some (MetaVal.num t) ∧
          lookupMeta d.metadata pathKey = some (MetaVal.str libPath) ∧
          ∀ e ∈ entries, isUnitEntry suffix e = true → e.mtime ≤ t := by
  simp only [isStale]
  by_cases hm : d.hasMetadata
  · simp only [hm, Bool.not_true, Bool.false_eq_true, if_false, true_and]
    cases ht : lookupMeta d.metadata timeKey with
    | none => simp
    | some v =>
      cases v with
      | str s => simp
      | num t =>
        cases hp : lookupMeta d.metadata pathKey with
        | none => simp
        | some w =>
          by_cases hw : w = MetaVal.str libPath
          · subst hw
            dsimp only
            rw [if_neg (by simp), List.any_eq_false]
            constructor
            · intro h
              refine ⟨t, rfl, rfl, fun e he hu => ?_⟩
              have hne := h e he
              simp only [Bool.and_eq_true, decide_eq_true_eq, not_and, not_lt] at hne
              exact hne hu
            · rintro ⟨t', ht', -, hall⟩
              have htt : t = t' := by
                injection ht' with h1
                injection h1
              subst htt
              intro e he
              simp only [Bool.and_eq_true, decide_eq_true_eq, not_and, not_lt]
              exact hall e he
          · dsimp only
            rw [if_pos hw]
            constructor
            · intro h; exact absurd h (by simp)
            · rintro ⟨t', -, hps, -⟩
              exact absurd (Option.some.inj hps) hw
  · simp only [Bool.not_eq_true] at hm
    simp [hm]

/-- C1 (amended): a family's staleness check returns `false` iff the store
file exists, the metadata table and the family's keys are present and
parsable, the recorded library root equals the root the index object holds,
the root is currently a non-empty path naming a directory, and no *unit of
change* directly under the root — a `*.pretty` directory for footprints, a
`*.kicad_sym` plain file for symbols — has a modification time strictly
greater than the recorded build timestamp.  Only the unit's own timestamp is
consulted: a change to a file nested inside a `*.pretty` directory is
detected only if it also updates the directory's own modification time. -/
theorem claim_C1_staleness_characterization (fpP symP : List Char)
    (fpArg symArg : Option (List Char)) (sys : Sys) (db : Option DB) :
    (footprintsStale ⟨some fpP, symArg⟩ sys db = false ↔
      fpP.isEmpty = false ∧ sys.isdir fpP = true ∧
        ∃ d, db = some d ∧ d.hasMetadata = true ∧
          ∃ t, lookupMeta d.metadata fpBuildTimeKey = some (MetaVal.num t) ∧
            lookupMeta d.metadata fpLibPathKey = some (MetaVal.str fpP) ∧
            ∀ e ∈ sys.entries fpP, isUnitEntry prettySuffix e = true → e.mtime ≤ t) ∧
    (symbolsStale ⟨fpArg, some symP⟩ sys db = false ↔
      symP.isEmpty = false ∧ sys.isdir symP = true ∧
        ∃ d, db = some d ∧ d.hasMetadata = true ∧
          ∃ t, lookupMeta d.metadata symBuildTimeKey = some (MetaVal.num t) ∧
            lookupMeta d.metadata symLibPathKey = some (MetaVal.str symP) ∧
            ∀ e ∈ sys.entries symP, isUnitEntry kicadSymSuffix e = true → e.mtime ≤ t) := by
  constructor
  · show (if fpP.isEmpty then true
        else if !sys.isdir fpP then true
        else isStale db fpBuildTimeKey fpLibPathKey fpP prettySuffix (sys.entries fpP)) =
          false ↔ _
    by_cases he : fpP.isEmpty = true
    · rw [if_pos he]
      simp [he]
    · have he' : fpP.isEmpty = false := by simpa using he
      by_cases hd : sys.isdir fpP = true
      · rw [if_neg he, if_neg (by simp [hd])]
        cases db with
        | none =>
          simp only [isStale]
          simp
        | some d =>
          rw [isStale_some_eq_false_iff]
          constructor
          · rintro ⟨h1, h2⟩
            exact ⟨he', hd, d, rfl, h1, h2⟩
          · rintro ⟨-, -, d', hd', h1, h2⟩
            obtain rfl : d = d' := Option.some.inj hd'
            exact ⟨h1, h2⟩
      · have hd' : sys.isdir fpP = false := by simpa using hd
        rw [if_neg he, if_pos (by simp [hd'])]
        simp [hd']
  · show (if symP.isEmpty then true
        else if !sys.isdir symP then true
        else isStale db symBuildTimeKey symLibPathKey symP kicadSymSuffix (sys.entries symP)) =
          false ↔ _
    by_cases he : symP.isEmpty = true
    · rw [if_pos he]
      simp [he]
    · have he' : symP.isEmpty = false := by simpa using he
      by_cases hd : sys.isdir symP = true
      · rw [if_neg he, if_neg (by simp [hd])]
        cases db with
        | none =>
          simp only [isStale]
          simp
        | some d =>
          rw [isStale_some_eq_false_iff]
          constructor
          · rintro ⟨h1, h2⟩
            exact ⟨he', hd, d, rfl, h1, h2⟩
          · rintro ⟨-, -, d', hd', h1, h2⟩
            obtain rfl : d = d' := Option.some.inj hd'
            exact ⟨h1, h2⟩
      · have hd' : sys.isdir symP = false := by simpa using hd
        rw [if_neg he, if_pos (by simp [hd'])]
        simp [hd']

/-- Root path of the footprint library in the C1 scenario. -/
def fpRootPath : List Char := "/libs/footprints".toList

/-- A footprint file whose content was modified (mtime 20) after the
recorded build (time 10); the write does not touch the mtime of the
containing directory. -/
def modifiedModFile : FpFile :=
  { name := ("R_0603.kicad_mod").toList, mtime := 20, content := [] }

/-- The containing `.pretty` directory, unchanged since before the build
(mtime 5). -/
def resistorPrettyDir : RootEntry :=
  { name := ("Resistor_SMD.pretty").toList, isDir := true, mtime := 5,
    files := [modifiedModFile], content := [] }

/-- The filesystem of the C1 scenario. -/
def sysC1 : Sys :=
  { env := fun _ => none, system := OSKind.linux,
    isdir := fun p => decide (p = fpRootPath),
    entries := fun p => if p = fpRootPath then [resistorPrettyDir] else [] }

/-- The store of the C1 scenario: footprints were indexed at time 10 from
the current root. -/
def dbC1 : DB :=
  { hasMetadata := true,
    metadata := [(fpBuildTimeKey, MetaVal.num 10), (fpLibPathKey, MetaVal.str fpRootPath)],
    footprints := some [], footprints_fts := some [], symbols := none,
    symbols_fts := none }

/-- C1 counterexample: a `.kicad_mod` file inside a `.pretty` directory was
modified after the recorded build timestamp (mtime 20 > 10), yet
`footprints_stale` returns `false`, because the scan consults only the
mtime of the `.pretty` directory itself (5 ≤ 10).  This refutes the claim
that modifying any file under the family's root after a rebuild makes
`is_stale` return `true`. -/
theorem claim_C1_counterexample :
    lookupMeta dbC1.metadata fpBuildTimeKey = some (MetaVal.num 10) ∧
      (∃ e ∈ sysC1.entries fpRootPath, ∃ f ∈ e.files, 10 < f.mtime) ∧
      footprintsStale ⟨some fpRootPath, none⟩ sysC1 (some dbC1) = false := by
  refine ⟨rfl, ⟨resistorPrettyDir, by decide, modifiedModFile, by decide, by decide⟩, ?_⟩
  decide

/-- The persisted store of a successful footprint rebuild. -/
theorem rebuildFootprints_success (fpP : List Char) (sys : Sys) (d0 : DB) (now : Nat)
    (hp : fpP.isEmpty = false) (hd : sys.isdir fpP = true) (hm : d0.hasMetadata = true) :
    rebuildFootprints (some fpP) sys d0 false now =
      { raised := false
        persisted :=
          { d0 with
            footprints := some (fpRowsFromFs (sys.entries fpP))
            footprints_fts := some ((fpRowsFromFs (sys.entries fpP)).map fpToFts)
            metadata :=
              setMeta
                (setMeta (setMeta d0.metadata fpBuildTimeKey (MetaVal.num now))
                  fpLibPathKey (MetaVal.str fpP))
                fpCountKey (MetaVal.num (fpRowsFromFs (sys.entries fpP)).length) }
        count := some (fpRowsFromFs (sys.entries fpP)).length } := by
  simp only [rebuildFootprints]
  rw [if_neg (by simp [hp, hd])]
  rw [if_neg (by simp), if_neg (by simp [hm])]

/-- The persisted store of a successful symbol rebuild. -/
theorem rebuildSymbols_success (symP : List Char) (sys : Sys) (d0 : DB) (now : Nat)
    (hp : symP.isEmpty = false) (hd : sys.isdir symP = true) (hm : d0.hasMetadata = true) :
    rebuildSymbols (some symP) sys d0 false now =
      { raised := false
        persisted :=
          { d0 with
            symbols := some (symRowsFromFs (sys.entries symP))
            symbols_fts := some ((symRowsFromFs (sys.entries symP)).map symToFts)
            metadata :=
              setMeta
                (setMeta (setMeta d0.metadata symBuildTimeKey (MetaVal.num now))
                  symLibPathKey (MetaVal.str symP))
                symCountKey (MetaVal.num (symRowsFromFs (sys.entries symP)).length) }
        count := some (symRowsFromFs (sys.entries symP)).length } := by
  simp only [rebuildSymbols]
  rw [if_neg (by simp [hp, hd])]
  rw [if_neg (by simp), if_neg (by simp [hm])]

/-- Footprint metadata after a footprint rebuild: the build time reads back. -/
theorem fp_meta_after_rebuild (m : List (List Char × MetaVal)) (p : List Char)
    (now cnt : Nat) :
    lookupMeta
        (setMeta (setMeta (setMeta m fpBuildTimeKey (MetaVal.num now))
          fpLibPathKey (MetaVal.str p)) fpCountKey (MetaVal.num cnt))
        fpBuildTimeKey = some (MetaVal.num now) ∧
      lookupMeta
        (setMeta (setMeta (setMeta m fpBuildTimeKey (MetaVal.num now))
          fpLibPathKey (MetaVal.str p)) fpCountKey (MetaVal.num cnt))
        fpLibPathKey = some (MetaVal.str p) := by
  constructor
  · rw [lookupMeta_setMeta_ne _ _ _ _ (by decide),
      lookupMeta_setMeta_ne _ _ _ _ (by decide), lookupMeta_setMeta_self]
  · rw [lookupMeta_setMeta_ne _ _ _ _ (by decide), lookupMeta_setMeta_self]

/-- Symbol metadata after a symbol rebuild: the build time reads back. -/
theorem sym_meta_after_rebuild (m : List (List Char × MetaVal)) (p : List Char)
    (now cnt : Nat) :
    lookupMeta
        (setMeta (setMeta (setMeta m symBuildTimeKey (MetaVal.num now))
          symLibPathKey (MetaVal.str p)) symCountKey (MetaVal.num cnt))
        symBuildTimeKey = some (MetaVal.num now) ∧
      lookupMeta
        (setMeta (setMeta (setMeta m symBuildTimeKey (MetaVal.num now))
          symLibPathKey (MetaVal.str p)) symCountKey (MetaVal.num cnt))
        symLibPathKey = some (MetaVal.str p) := by
  constructor
  · rw [lookupMeta_setMeta_ne _ _ _ _ (by decide),
      lookupMeta_setMeta_ne _ _ _ _ (by decide), lookupMeta_setMeta_self]
  · rw [lookupMeta_setMeta_ne _ _ _ _ (by decide), lookupMeta_setMeta_self]

/-- C3: for every family, immediately after a successful rebuild — with no
filesystem or store change in between, expressed by requiring every entry's
modification time to be at most the recorded build instant and the
filesystem to be the same one the rebuild saw — the family's staleness check
returns false. -/
theorem claim_C3_rebuild_fresh (fpP symP : List Char) (fpArg symArg : Option (List Char))
    (sys : Sys) (d0 d1 : DB) (now now' : Nat)
    (hfpP : fpP.isEmpty = false) (hfpD : sys.isdir fpP = true)
    (hfpM : ∀ e ∈ sys.entries fpP, e.mtime ≤ now)
    (hsymP : symP.isEmpty = false) (hsymD : sys.isdir symP = true)
    (hsymM : ∀ e ∈ sys.entries symP, e.mtime ≤ now')
    (hmeta : d0.hasMetadata = true) (hmeta' : d1.hasMetadata = true) :
    (rebuildFootprints (some fpP) sys d0 false now).raised = false ∧
      footprintsStale ⟨some fpP, symArg⟩ sys
        (some (rebuildFootprints (some fpP) sys d0 false now).persisted) = false ∧
      (rebuildSymbols (some symP) sys d1 false now').raised = false ∧
      symbolsStale ⟨fpArg, some symP⟩ sys
        (some (rebuildSymbols (some symP) sys d1 false now').persisted) = false := by
  rw [rebuildFootprints_success fpP sys d0 now hfpP hfpD hmeta,
    rebuildSymbols_success symP sys d1 now' hsymP hsymD hmeta']
  refine ⟨rfl, ?_, rfl, ?_⟩
  · show (if fpP.isEmpty then true
        else if !sys.isdir fpP then true
        else isStale _ fpBuildTimeKey fpLibPathKey fpP prettySuffix (sys.entries fpP)) = false
    rw [if_neg (by simp [hfpP]), if_neg (by simp [hfpD])]
    rw [isStale_some_eq_false_iff]
    refine ⟨hmeta, now, (fp_meta_after_rebuild _ _ _ _).1,
      (fp_meta_after_rebuild _ _ _ _).2, fun e he _ => hfpM e he⟩
  · show (if symP.isEmpty then true
        else if !sys.isdir symP then true
        else isStale _ symBuildTimeKey symLibPathKey symP kicadSymSuffix (sys.entries symP)) =
          false
    rw [if_neg (by simp [hsymP]), if_neg (by simp [hsymD])]
    rw [isStale_some_eq_false_iff]
    refine ⟨hmeta', now', (sym_meta_after_rebuild _ _ _ _).1,
      (sym_meta_after_rebuild _ _ _ _).2, fun e he _ => hsymM e he⟩

/-- Filesystem for the C3 witness: both roots exist and hold no entries. -/
def sysC3 : Sys :=
  { env := fun _ => none, system := OSKind.linux,
    isdir := fun p => decide (p = ("/fp").toList) || decide (p = ("/sym").toList),
    entries := fun _ => [] }

/-- Witness for C3 at a concrete filesystem and store. -/
theorem claim_C3_witness :
    (rebuildFootprints (some (("/fp").toList)) sysC3 emptyStore false 7).raised = false ∧
      footprintsStale ⟨some (("/fp").toList), none⟩ sysC3
        (some (rebuildFootprints (some (("/fp").toList)) sysC3 emptyStore false 7).persisted) =
        false ∧
      (rebuildSymbols (some (("/sym").toList)) sysC3 emptyStore false 9).raised = false ∧
      symbolsStale ⟨none, some (("/sym").toList)⟩ sysC3
        (some (rebuildSymbols (some (("/sym").toList)) sysC3 emptyStore false 9).persisted) =
        false :=
  claim_C3_rebuild_fresh (("/fp").toList) (("/sym").toList) none none sysC3
    emptyStore emptyStore 7 9 (by decide) (by decide) (by simp [sysC3])
    (by decide) (by decide) (by simp [sysC3]) rfl rfl

/-- The one footprint row indexed before the failing rebuild of the C2
scenario. -/
def oneFpRow : FpRow :=
  { id := 1, library := ("Resistor_SMD").toList, name := ("R_0603").toList,
    description := [], tags := [], pad_count := 2 }

/-- The store before the failing rebuild: one indexed footprint, matching
metadata. -/
def dbC2 : DB :=
  { hasMetadata := true,
    metadata := [(fpBuildTimeKey, MetaVal.num 10), (fpLibPathKey, MetaVal.str fpRootPath),
      (fpCountKey, MetaVal.num 1)],
    footprints := some [oneFpRow], footprints_fts := some [fpToFts oneFpRow],
    symbols := some [], symbols_fts := some [] }

/-- C2: evaluation of a rebuild that fails while enumerating the library
root (`os.scandir` raises after the `DROP`/`CREATE` statements have already
been committed).  The exception propagates, but the persisted store is NOT
the pre-call store: the footprint primary and FTS tables are left freshly
created and empty, while the metadata still describes the previous build
(`fp_count` = 1) — a partially built state observable to every later
caller.  This refutes the claim that a failed rebuild leaves the previously
persisted state exactly as it was. -/
theorem claim_C2_failed_rebuild_observable :
    (rebuildFootprints (some fpRootPath) sysC1 dbC2 true 50).raised = true ∧
      (rebuildFootprints (some fpRootPath) sysC1 dbC2 true 50).persisted.footprints =
        some [] ∧
      (rebuildFootprints (some fpRootPath) sysC1 dbC2 true 50).persisted.footprints_fts =
        some [] ∧
      dbC2.footprints = some [oneFpRow] ∧
      lookupMeta
          (rebuildFootprints (some fpRootPath) sysC1 dbC2 true 50).persisted.metadata
          fpCountKey = some (MetaVal.num 1) ∧
      (rebuildFootprints (some fpRootPath) sysC1 dbC2 true 50).persisted ≠ dbC2 := by
  refine ⟨?_, ?_, ?_, rfl, ?_, ?_⟩ <;> decide

/-- Every outcome of a footprint rebuild — refusal, scan failure, metadata
failure or success — leaves the symbol tables and the three symbol metadata
keys exactly as they were. -/
theorem rebuildFootprints_preserves_symbols (fpPath : Option (List Char)) (sys : Sys)
    (d0 : DB) (sf : Bool) (now : Nat) :
    (rebuildFootprints fpPath sys d0 sf now).persisted.symbols = d0.symbols ∧
      (rebuildFootprints fpPath sys d0 sf now).persisted.symbols_fts = d0.symbols_fts ∧
      lookupMeta (rebuildFootprints fpPath sys d0 sf now).persisted.metadata
        symBuildTimeKey = lookupMeta d0.metadata symBuildTimeKey ∧
      lookupMeta (rebuildFootprints fpPath sys d0 sf now).persisted.metadata
        symLibPathKey = lookupMeta d0.metadata symLibPathKey ∧
      lookupMeta (rebuildFootprints fpPath sys d0 sf now).persisted.metadata
        symCountKey = lookupMeta d0.metadata symCountKey := by
  cases fpPath with
  | none => exact ⟨rfl, rfl, rfl, rfl, rfl⟩
  | some p =>
    simp only [rebuildFootprints]
    by_cases h1 : (p.isEmpty || !sys.isdir p) = true
    · rw [if_pos h1]
      exact ⟨rfl, rfl, rfl, rfl, rfl⟩
    · rw [if_neg h1]
      cases sf with
      | true => exact ⟨rfl, rfl, rfl, rfl, rfl⟩
      | false =>
        rw [if_neg (by simp)]
        by_cases h2 : (!d0.hasMetadata) = true
        · rw [if_pos h2]
          exact ⟨rfl, rfl, rfl, rfl, rfl⟩
        · rw [if_neg h2]
          refine ⟨rfl, rfl, ?_, ?_, ?_⟩ <;>
            rw [lookupMeta_setMeta_ne _ _ _ _ (by decide),
              lookupMeta_setMeta_ne _ _ _ _ (by decide),
              lookupMeta_setMeta_ne _ _ _ _ (by decide)]

/-- Every outcome of a symbol rebuild leaves the footprint tables and the
three footprint metadata keys exactly as they were. -/
theorem rebuildSymbols_preserves_footprints (symPath : Option (List Char)) (sys : Sys)
    (d0 : DB) (sf : Bool) (now : Nat) :
    (rebuildSymbols symPath sys d0 sf now).persisted.footprints = d0.footprints ∧
      (rebuildSymbols symPath sys d0 sf now).persisted.footprints_fts = d0.footprints_fts ∧
      lookupMeta (rebuildSymbols symPath sys d0 sf now).persisted.metadata
        fpBuildTimeKey = lookupMeta d0.metadata fpBuildTimeKey ∧
      lookupMeta (rebuildSymbols symPath sys d0 sf now).persisted.metadata
        fpLibPathKey = lookupMeta d0.metadata fpLibPathKey ∧
      lookupMeta (rebuildSymbols symPath sys d0 sf now).persisted.metadata
        fpCountKey = lookupMeta d0.metadata fpCountKey := by
  cases symPath with
  | none => exact ⟨rfl, rfl, rfl, rfl, rfl⟩
  | some p =>
    simp only [rebuildSymbols]
    by_cases h1 : (p.isEmpty || !sys.isdir p) = true
    · rw [if_pos h1]
      exact ⟨rfl, rfl, rfl, rfl, rfl⟩
    · rw [if_neg h1]
      cases sf with
      | true => exact ⟨rfl, rfl, rfl, rfl, rfl⟩
      | false =>
        rw [if_neg (by simp)]
        by_cases h2 : (!d0.hasMetadata) = true
        · rw [if_pos h2]
          exact ⟨rfl, rfl, rfl, rfl, rfl⟩
        · rw [if_neg h2]
          refine ⟨rfl, rfl, ?_, ?_, ?_⟩ <;>
            rw [lookupMeta_setMeta_ne _ _ _ _ (by decide),
              lookupMeta_setMeta_ne _ _ _ _ (by decide),
              lookupMeta_setMeta_ne _ _ _ _ (by decide)]

/-- The footprint staleness check reads the filesystem only through
`isdir` and the entries of its own root. -/
theorem footprintsStale_frame (idx : LibraryIndex) (sysA sysB : Sys) (db : Option DB)
    (hdir : sysA.isdir = sysB.isdir)
    (hent : ∀ p, idx.footprint_lib_path = some p → sysA.entries p = sysB.entries p) :
    footprintsStale idx sysA db = footprintsStale idx sysB db := by
  cases h : idx.footprint_lib_path with
  | none => simp only [footprintsStale, h]
  | some p => simp only [footprintsStale, h, hdir, hent p h]

/-- The symbol staleness check reads the filesystem only through `isdir`
and the entries of its own root. -/
theorem symbolsStale_frame (idx : LibraryIndex) (sysA sysB : Sys) (db : Option DB)
    (hdir : sysA.isdir = sysB.isdir)
    (hent : ∀ p, idx.symbol_lib_path = some p → sysA.entries p = sysB.entries p) :
    symbolsStale idx sysA db = symbolsStale idx sysB db := by
  cases h : idx.symbol_lib_path with
  | none => simp only [symbolsStale, h]
  | some p => simp only [symbolsStale, h, hdir, hent p h]

/-- A unit entry under the footprint root newer than the recorded build
time makes the footprint staleness check report stale. -/
theorem footprintsStale_true_of_newer_unit (fpP : List Char) (symArg : Option (List Char))
    (sys : Sys) (d : DB) (t : Nat)
    (hT : lookupMeta d.metadata fpBuildTimeKey = some (MetaVal.num t))
    (hE : ∃ e ∈ sys.entries fpP, isUnitEntry prettySuffix e = true ∧ t < e.mtime) :
    footprintsStale ⟨some fpP, symArg⟩ sys (some d) = true := by
  show (if fpP.isEmpty then true
      else if !sys.isdir fpP then true
      else isStale (some d) fpBuildTimeKey fpLibPathKey fpP prettySuffix (sys.entries fpP)) =
        true
  by_cases h1 : fpP.isEmpty = true
  · rw [if_pos h1]
  · rw [if_neg h1]
    by_cases h2 : (!sys.isdir fpP) = true
    · rw [if_pos h2]
    · rw [if_neg h2]
      simp only [isStale]
      by_cases h3 : d.hasMetadata
      · simp only [h3, Bool.not_true, Bool.false_eq_true, if_false]
        rw [hT]
        dsimp only
        cases h4 : lookupMeta d.metadata fpLibPathKey with
        | none => rfl
        | some v =>
          dsimp only
          by_cases h5 : v ≠ MetaVal.str fpP
          · rw [if_pos h5]
          · rw [if_neg h5, List.any_eq_true]
            obtain ⟨e, he, hu, hlt⟩ := hE
            exact ⟨e, he, by simp [hu, hlt]⟩
      · simp only [Bool.not_eq_true] at h3
        simp [h3]

/-- A unit entry under the symbol root newer than the recorded build time
makes the symbol staleness check report stale. -/
theorem symbolsStale_true_of_newer_unit (symP : List Char) (fpArg : Option (List Char))
    (sys : Sys) (d : DB) (t : Nat)
    (hT : lookupMeta d.metadata symBuildTimeKey = some (MetaVal.num t))
    (hE : ∃ e ∈ sys.entries symP, isUnitEntry kicadSymSuffix e = true ∧ t < e.mtime) :
    symbolsStale ⟨fpArg, some symP⟩ sys (some d) = true := by
  show (if symP.isEmpty then true
      else if !sys.isdir symP then true
      else isStale (some d) symBuildTimeKey symLibPathKey symP kicadSymSuffix
        (sys.entries symP)) = true
  by_cases h1 : symP.isEmpty = true
  · rw [if_pos h1]
  · rw [if_neg h1]
    by_cases h2 : (!sys.isdir symP) = true
    · rw [if_pos h2]
    · rw [if_neg h2]
      simp only [isStale]
      by_cases h3 : d.hasMetadata
      · simp only [h3, Bool.not_true, Bool.false_eq_true, if_false]
        rw [hT]
        dsimp only
        cases h4 : lookupMeta d.metadata symLibPathKey with
        | none => rfl
        | some v =>
          dsimp only
          by_cases h5 : v ≠ MetaVal.str symP
          · rw [if_pos h5]
          · rw [if_neg h5, List.any_eq_true]
            obtain ⟨e, he, hu, hlt⟩ := hE
            exact ⟨e, he, by simp [hu, hlt]⟩
      · simp only [Bool.not_eq_true] at h3
        simp [h3]

/-- C5: the two families are independent through every stage.  (i) Any
footprint rebuild leaves the symbol tables and the symbol metadata keys
(including the record count) unchanged, and symmetrically for a symbol
rebuild.  (ii) The symbol staleness outcome does not change between two
filesystems that agree on directory existence and on the symbol root's
entries (so touching footprint units leaves it unaffected), and
symmetrically for footprints.  (iii) Touching a footprint unit so that its
modification time exceeds the recorded footprint build time makes the
footprint check stale (world `sysA`), and touching a symbol unit does the
same for symbols (world `sysBfp`). -/
theorem claim_C5_family_independence
    (fpPathArg symPathArg : Option (List Char)) (fpP symP : List Char)
    (fpArg symArg : Option (List Char)) (sysA sysBsym sysBfp : Sys)
    (d0 d1 d : DB) (db : Option DB) (sf sf' : Bool) (now now' t t' : Nat)
    (hdir1 : sysA.isdir = sysBsym.isdir)
    (hentSym : sysA.entries symP = sysBsym.entries symP)
    (hdir2 : sysA.isdir = sysBfp.isdir)
    (hentFp : sysA.entries fpP = sysBfp.entries fpP)
    (hT : lookupMeta d.metadata fpBuildTimeKey = some (MetaVal.num t))
    (hE : ∃ e ∈ sysA.entries fpP, isUnitEntry prettySuffix e = true ∧ t < e.mtime)
    (hT' : lookupMeta d.metadata symBuildTimeKey = some (MetaVal.num t'))
    (hE' : ∃ e ∈ sysBfp.entries symP, isUnitEntry kicadSymSuffix e = true ∧ t' < e.mtime) :
    ((rebuildFootprints fpPathArg sysA d0 sf now).persisted.symbols = d0.symbols ∧
      (rebuildFootprints fpPathArg sysA d0 sf now).persisted.symbols_fts = d0.symbols_fts ∧
      lookupMeta (rebuildFootprints fpPathArg sysA d0 sf now).persisted.metadata
        symBuildTimeKey = lookupMeta d0.metadata symBuildTimeKey ∧
      lookupMeta (rebuildFootprints fpPathArg sysA d0 sf now).persisted.metadata
        symLibPathKey = lookupMeta d0.metadata symLibPathKey ∧
      lookupMeta (rebuildFootprints fpPathArg sysA d0 sf now).persisted.metadata
        symCountKey = lookupMeta d0.metadata symCountKey) ∧
    ((rebuildSymbols symPathArg sysA d1 sf' now').persisted.footprints = d1.footprints ∧
      (rebuildSymbols symPathArg sysA d1 sf' now').persisted.footprints_fts =
        d1.footprints_fts ∧
      lookupMeta (rebuildSymbols symPathArg sysA d1 sf' now').persisted.metadata
        fpBuildTimeKey = lookupMeta d1.metadata fpBuildTimeKey ∧
      lookupMeta (rebuildSymbols symPathArg sysA d1 sf' now').persisted.metadata
        fpLibPathKey = lookupMeta d1.metadata fpLibPathKey ∧
      lookupMeta (rebuildSymbols symPathArg sysA d1 sf' now').persisted.metadata
        fpCountKey = lookupMeta d1.metadata fpCountKey) ∧
    symbolsStale ⟨fpArg, some symP⟩ sysA db = symbolsStale ⟨fpArg, some symP⟩ sysBsym db ∧
    footprintsStale ⟨some fpP, symArg⟩ sysA db =
      footprintsStale ⟨some fpP, symArg⟩ sysBfp db ∧
    footprintsStale ⟨some fpP, symArg⟩ sysA (some d) = true ∧
    symbolsStale ⟨fpArg, some symP⟩ sysBfp (some d) = true := by
  refine ⟨rebuildFootprints_preserves_symbols fpPathArg sysA d0 sf now,
    rebuildSymbols_preserves_footprints symPathArg sysA d1 sf' now', ?_, ?_, ?_, ?_⟩
  · exact symbolsStale_frame _ sysA sysBsym db hdir1
      (fun p hp => by cases hp; exact hentSym)
  · exact footprintsStale_frame _ sysA sysBfp db hdir2
      (fun p hp => by cases hp; exact hentFp)
  · exact footprintsStale_true_of_newer_unit fpP symArg sysA d t hT hE
  · exact symbolsStale_true_of_newer_unit symP fpArg sysBfp d t' hT' hE'

/-- Path of the footprint root in the C5 scenario. -/
def fpRootC5 : List Char := ("/fp").toList

/-- Path of the symbol root in the C5 scenario. -/
def symRootC5 : List Char := ("/sym").toList

/-- A `.pretty` directory touched after the build (mtime 50 > build 10). -/
def touchedPretty : RootEntry :=
  { name := ("Res.pretty").toList, isDir := true, mtime := 50, files := [], content := [] }

/-- The same `.pretty` directory before being touched. -/
def untouchedPretty : RootEntry :=
  { name := ("Res.pretty").toList, isDir := true, mtime := 5, files := [], content := [] }

/-- A symbol library file untouched since the build. -/
def symFileEntry : RootEntry :=
  { name := ("Device.kicad_sym").toList, isDir := false, mtime := 5, files := [],
    content := [] }

/-- The symbol library file touched after the build (mtime 60 > build 10). -/
def touchedSymFile : RootEntry :=
  { name := ("Device.kicad_sym").toList, isDir := false, mtime := 60, files := [],
    content := [] }

/-- C5 world A: the footprint unit was touched, the symbol unit was not. -/
def sysC5A : Sys :=
  { env := fun _ => none, system := OSKind.linux,
    isdir := fun p => decide (p = fpRootC5) || decide (p = symRootC5),
    entries := fun p =>
      if p = fpRootC5 then [touchedPretty]
      else if p = symRootC5 then [symFileEntry] else [] }

/-- C5 world before any touch (same `isdir`, same symbol entries as world
A). -/
def sysC5B : Sys :=
  { env := sysC5A.env, system := sysC5A.system, isdir := sysC5A.isdir,
    entries := fun p =>
      if p = fpRootC5 then [untouchedPretty]
      else if p = symRootC5 then [symFileEntry] else [] }

/-- C5 world where instead the symbol unit was touched (same `isdir`, same
footprint entries as world A). -/
def sysC5C : Sys :=
  { env := sysC5A.env, system := sysC5A.system, isdir := sysC5A.isdir,
    entries := fun p =>
      if p = fpRootC5 then [touchedPretty]
      else if p = symRootC5 then [touchedSymFile] else [] }

/-- The store of the C5 scenario: both families indexed at time 10 from the
current roots. -/
def dbC5 : DB :=
  { hasMetadata := true,
    metadata := [(fpBuildTimeKey, MetaVal.num 10), (fpLibPathKey, MetaVal.str fpRootC5),
      (fpCountKey, MetaVal.num 1), (symBuildTimeKey, MetaVal.num 10),
      (symLibPathKey, MetaVal.str symRootC5), (symCountKey, MetaVal.num 2)],
    footprints := some [oneFpRow], footprints_fts := some [fpToFts oneFpRow],
    symbols := some [], symbols_fts := some [] }

/-- Witness for C5 at the concrete three-world scenario. -/
theorem claim_C5_witness :
    ((rebuildFootprints (some fpRootC5) sysC5A dbC5 false 99).persisted.symbols =
        dbC5.symbols ∧
      (rebuildFootprints (some fpRootC5) sysC5A dbC5 false 99).persisted.symbols_fts =
        dbC5.symbols_fts ∧
      lookupMeta (rebuildFootprints (some fpRootC5) sysC5A dbC5 false 99).persisted.metadata
        symBuildTimeKey = lookupMeta dbC5.metadata symBuildTimeKey ∧
      lookupMeta (rebuildFootprints (some fpRootC5) sysC5A dbC5 false 99).persisted.metadata
        symLibPathKey = lookupMeta dbC5.metadata symLibPathKey ∧
      lookupMeta (rebuildFootprints (some fpRootC5) sysC5A dbC5 false 99).persisted.metadata
        symCountKey = lookupMeta dbC5.metadata symCountKey) ∧
    ((rebuildSymbols (some symRootC5) sysC5A dbC5 false 99).persisted.footprints =
        dbC5.footprints ∧
      (rebuildSymbols (some symRootC5) sysC5A dbC5 false 99).persisted.footprints_fts =
        dbC5.footprints_fts ∧
      lookupMeta (rebuildSymbols (some symRootC5) sysC5A dbC5 false 99).persisted.metadata
        fpBuildTimeKey = lookupMeta dbC5.metadata fpBuildTimeKey ∧
      lookupMeta (rebuildSymbols (some symRootC5) sysC5A dbC5 false 99).persisted.metadata
        fpLibPathKey = lookupMeta dbC5.metadata fpLibPathKey ∧
      lookupMeta (rebuildSymbols (some symRootC5) sysC5A dbC5 false 99).persisted.metadata
        fpCountKey = lookupMeta dbC5.metadata fpCountKey) ∧
    symbolsStale ⟨none, some symRootC5⟩ sysC5A (some dbC5) =
      symbolsStale ⟨none, some symRootC5⟩ sysC5B (some dbC5) ∧
    footprintsStale ⟨some fpRootC5, none⟩ sysC5A (some dbC5) =
      footprintsStale ⟨some fpRootC5, none⟩ sysC5C (some dbC5) ∧
    footprintsStale ⟨some fpRootC5, none⟩ sysC5A (some dbC5) = true ∧
    symbolsStale ⟨none, some symRootC5⟩ sysC5C (some dbC5) = true :=
  claim_C5_family_independence (some fpRootC5) (some symRootC5) fpRootC5 symRootC5
    none none sysC5A sysC5B sysC5C dbC5 dbC5 dbC5 (some dbC5) false false 99 99 10 10
    rfl (by decide) rfl (by decide) (by decide)
    ⟨touchedPretty, by decide, by decide, by decide⟩ (by decide)
    ⟨touchedSymFile, by decide, by decide, by decide⟩

/-- The footprint root under the first Linux share directory. -/
def fpOldRoot : List Char := joinPath linuxShare1 footprintsWord

/-- The footprint root under the second Linux share directory. -/
def fpNewRoot : List Char := joinPath linuxShare2 footprintsWord

/-- C6 world at construction time: the libraries live under
`/usr/share/kicad`. -/
def sysBefore : Sys :=
  { env := fun _ => none, system := OSKind.linux,
    isdir := fun p => decide (p = linuxShare1) || decide (p = fpOldRoot),
    entries := fun _ => [] }

/-- C6 world at check time: the library tree was reinstalled under
`/usr/local/share/kicad` and the old location removed. -/
def sysAfter : Sys :=
  { env := fun _ => none, system := OSKind.linux,
    isdir := fun p => decide (p = linuxShare2) || decide (p = fpNewRoot),
    entries := fun _ => [] }

/-- The store of the C6 scenario, recording the new root with no unit newer
than the build time. -/
def dbC6 : DB :=
  { hasMetadata := true,
    metadata := [(fpBuildTimeKey, MetaVal.num 10), (fpLibPathKey, MetaVal.str fpNewRoot)],
    footprints := some [], footprints_fts := some [], symbols := none,
    symbols_fts := none }

/-- C6 counterexample: root resolution runs once in `__init__` and the
result is cached on the instance; `footprints_stale` reuses the cached
path.  After the library tree moves to a different resolvable location, a
fresh resolution yields the new root, but the check still uses the old one:
it reports stale even though the store matches the currently resolvable
root, while the same check run on the current resolution reports fresh.
This refutes the claim that resolution is re-run on every staleness check. -/
theorem claim_C6_counterexample :
    (LibraryIndex.init sysBefore none none).footprint_lib_path = some fpOldRoot ∧
      getFootprintLibPath sysAfter = some fpNewRoot ∧
      fpOldRoot ≠ fpNewRoot ∧
      footprintsStale (LibraryIndex.init sysBefore none none) sysAfter (some dbC6) = true ∧
      footprintsStale ⟨getFootprintLibPath sysAfter, none⟩ sysAfter (some dbC6) = false := by
  refine ⟨?_, ?_, ?_, ?_, ?_⟩ <;> decide

/-- C6 (amended): resolution is a deterministic function of the
environment and filesystem, but it runs once at construction and the result
is cached on the instance.  A staleness check consults the current
filesystem only through `isdir` and the cached root's entries — never the
environment, never a fresh resolution — and when the cached root no longer
names a directory the check fails toward stale rather than re-resolving. -/
theorem claim_C6_cached_resolution (sys0 sysA sysB : Sys)
    (fpArg symArg : Option (List Char)) (db : Option DB)
    (hdir : sysA.isdir = sysB.isdir) (hent : sysA.entries = sysB.entries) :
    (LibraryIndex.init sys0 fpArg symArg).footprint_lib_path =
        (if pyTruthy fpArg then fpArg else getFootprintLibPath sys0) ∧
      (LibraryIndex.init sys0 fpArg symArg).symbol_lib_path =
        (if pyTruthy symArg then symArg else getSymbolLibPath sys0) ∧
      footprintsStale (LibraryIndex.init sys0 fpArg symArg) sysA db =
        footprintsStale (LibraryIndex.init sys0 fpArg symArg) sysB db ∧
      symbolsStale (LibraryIndex.init sys0 fpArg symArg) sysA db =
        symbolsStale (LibraryIndex.init sys0 fpArg symArg) sysB db ∧
      (∀ p, (LibraryIndex.init sys0 fpArg symArg).footprint_lib_path = some p →
        sysA.isdir p = false →
        footprintsStale (LibraryIndex.init sys0 fpArg symArg) sysA db = true) ∧
      (∀ p, (LibraryIndex.init sys0 fpArg symArg).symbol_lib_path = some p →
        sysA.isdir p = false →
        symbolsStale (LibraryIndex.init sys0 fpArg symArg) sysA db = true) := by
  refine ⟨rfl, rfl, ?_, ?_, ?_, ?_⟩
  · exact footprintsStale_frame _ sysA sysB db hdir (fun p _ => by rw [hent])
  · exact symbolsStale_frame _ sysA sysB db hdir (fun p _ => by rw [hent])
  · intro p hp hdf
    by_cases hpe : p.isEmpty = true
    · simp [footprintsStale, hp, hpe]
    · simp [footprintsStale, hp, hpe, hdf]
  · intro p hp hdf
    by_cases hpe : p.isEmpty = true
    · simp [symbolsStale, hp, hpe]
    · simp [symbolsStale, hp, hpe, hdf]

/-- C6 world at check time with a changed environment (same directories as
`sysAfter`): used to witness that the check never consults the
environment. -/
def sysAfterEnv : Sys :=
  { env := fun _ => some (("/elsewhere").toList), system := OSKind.darwin,
    isdir := sysAfter.isdir, entries := sysAfter.entries }

/-- Witness for C6 amended at the concrete reinstall scenario: the cached
root is the construction-time resolution, the check's outcome ignores the
environment, and the vanished cached root makes the check report stale. -/
theorem claim_C6_witness :
    (LibraryIndex.init sysBefore none none).footprint_lib_path =
        (if pyTruthy none then none else getFootprintLibPath sysBefore) ∧
      (LibraryIndex.init sysBefore none none).symbol_lib_path =
        (if pyTruthy none then none else getSymbolLibPath sysBefore) ∧
      footprintsStale (LibraryIndex.init sysBefore none none) sysAfter (some dbC6) =
        footprintsStale (LibraryIndex.init sysBefore none none) sysAfterEnv (some dbC6) ∧
      symbolsStale (LibraryIndex.init sysBefore none none) sysAfter (some dbC6) =
        symbolsStale (LibraryIndex.init sysBefore none none) sysAfterEnv (some dbC6) ∧
      footprintsStale (LibraryIndex.init sysBefore none none) sysAfter (some dbC6) = true :=
  ⟨(claim_C6_cached_resolution sysBefore sysAfter sysAfterEnv none none (some dbC6)
      rfl rfl).1,
    (claim_C6_cached_resolution sysBefore sysAfter sysAfterEnv none none (some dbC6)
      rfl rfl).2.1,
    (claim_C6_cached_resolution sysBefore sysAfter sysAfterEnv none none (some dbC6)
      rfl rfl).2.2.1,
    (claim_C6_cached_resolution sysBefore sysAfter sysAfterEnv none none (some dbC6)
      rfl rfl).2.2.2.1,
    (claim_C6_cached_resolution sysBefore sysAfter sysAfterEnv none none (some dbC6)
      rfl rfl).2.2.2.2.1 fpOldRoot (by decide) (by decide)⟩

/-- The symbol parser never returns a record whose name matches the
sub-unit suffix pattern. -/
theorem parseKicadSym_no_subunit (lib content : List Char) :
    ∀ r ∈ parseKicadSym lib content, isSubUnitName r.name = false := by
  intro r hr
  simp only [parseKicadSym, List.mem_filterMap] at hr
  obtain ⟨d, -, hf⟩ := hr
  by_cases hs : isSubUnitName d.1 = true
  · rw [if_pos hs] at hf
    exact absurd hf (by simp)
  · rw [if_neg hs] at hf
    obtain rfl := Option.some.inj hf
    simpa using hs

/-- Every record produced by a parser run carries its fields extracted from
the delimited span of text running from that symbol's top-level declaration
to the next top-level declaration head (or the end of the file): the first
description property in the span, the first keywords property in the span,
and the count of pin declarations anywhere in the span. -/
theorem parseKicadSym_span (lib content : List Char) :
    ∀ r ∈ parseKicadSym lib content,
      ∃ d, d ∈ findDeclsFrom content 0 ∧ isSubUnitName d.1 = false ∧
        r.name = d.1 ∧ r.library = lib ∧
        r.description = (searchPropVal descriptionKey
          ((content.take ((findNextDeclHead content d.2.2).getD content.length)).drop
            d.2.1)).getD [] ∧
        r.keywords = (searchPropVal keywordsKey
          ((content.take ((findNextDeclHead content d.2.2).getD content.length)).drop
            d.2.1)).getD [] ∧
        r.pin_count = countTag pinWord
          ((content.take ((findNextDeclHead content d.2.2).getD content.length)).drop
            d.2.1) := by
  intro r hr
  simp only [parseKicadSym, List.mem_filterMap] at hr
  obtain ⟨d, hd, hf⟩ := hr
  by_cases hs : isSubUnitName d.1 = true
  · rw [if_pos hs] at hf
    exact absurd hf (by simp)
  · rw [if_neg hs] at hf
    obtain rfl := Option.some.inj hf
    exact ⟨d, hd, by simpa using hs, rfl, rfl, rfl, rfl, rfl⟩

/-- The span delimiter really is a declaration head: whenever the
next-declaration search succeeds, the found position matches the
declaration-head pattern. -/
theorem findNextDeclHeadAux_is_head (content : List Char) (ss : Nat) :
    ∀ fuel pos e, findNextDeclHeadAux content ss fuel pos = some e →
      matchDeclHead (content.drop e) = true := by
  intro fuel
  induction fuel with
  | zero =>
    intro pos e h
    exact absurd h (by simp [findNextDeclHeadAux])
  | succ k ih =>
    intro pos e h
    simp only [findNextDeclHeadAux] at h
    by_cases hlt : pos < content.length
    · rw [if_pos hlt] at h
      by_cases hcond :
          ((pos = ss || isLineStartAt content pos) && matchDeclHead (content.drop pos)) = true
      · rw [if_pos hcond] at h
        obtain rfl := Option.some.inj h
        simp only [Bool.and_eq_true] at hcond
        exact hcond.2
      · rw [if_neg hcond] at h
        exact ih (pos + 1) e h
    · rw [if_neg hlt] at h
      exact absurd h (by simp)

/-- Wrapper of `findNextDeclHeadAux_is_head` for `findNextDeclHead`. -/
theorem findNextDeclHead_is_head (content : List Char) (ss e : Nat)
    (h : findNextDeclHead content ss = some e) :
    matchDeclHead (content.drop e) = true :=
  findNextDeclHeadAux_is_head content ss (content.length + 1) ss e h

/-- No row of a rebuilt symbols table carries a sub-unit name. -/
theorem symRowsFromFs_no_subunit (entries : List RootEntry) :
    ∀ r ∈ symRowsFromFs entries, isSubUnitName r.name = false := by
  intro r hr
  simp only [symRowsFromFs, List.mem_map] at hr
  obtain ⟨p, hp, rfl⟩ := hr
  have hpre := snd_mem_of_mem_withIdx hp
  simp only [symPresFromFs] at hpre
  rw [mem_collect] at hpre
  obtain ⟨e, -, hin⟩ := hpre
  by_cases h1 : kicadSymSuffix.isSuffixOf e.name = true
  · rw [if_pos h1] at hin
    by_cases h2 : e.isDir = true
    · rw [if_pos h2] at hin
      exact absurd hin (by simp)
    · rw [if_neg h2] at hin
      exact parseKicadSym_no_subunit _ _ _ hin
  · rw [if_neg h1] at hin
    exact absurd hin (by simp)

/-- Every symbol search result is a projection of a row of the `symbols`
table (through the FTS join, match filter, library filter, rank order and
limit). -/
theorem searchSymbols_results_from_table (q : List Char) (libF : Option (List Char))
    (limit : Nat) (env : SearchEnv) (db : DB) (rs : List SymResult) (tch : Bool)
    (h : searchSymbols q libF limit env db = SearchOutcome.returned rs tch) :
    ∀ r ∈ rs, ∃ ss, db.symbols = some ss ∧ ∃ s ∈ ss, r.name = s.name := by
  intro r hr
  unfold searchSymbols at h
  by_cases hb : (q.isEmpty || (pyStrip q).isEmpty) = true
  · rw [if_pos hb] at h
    injection h with h1 h2
    subst h1
    exact absurd hr (by simp)
  · rw [if_neg hb] at h
    by_cases hc : env.connectErr = true
    · rw [if_pos hc] at h
      exact absurd h (by simp)
    · rw [if_neg hc] at h
      cases hqe : env.execErr with
      | opErr =>
        rw [hqe] at h
        dsimp only at h
        injection h with h1 h2
        subst h1
        exact absurd hr (by simp)
      | otherErr =>
        rw [hqe] at h
        dsimp only at h
        exact absurd h (by simp)
      | ok =>
        rw [hqe] at h
        dsimp only at h
        cases hft : db.symbols_fts with
        | none =>
          rw [hft] at h
          cases hsm : db.symbols with
          | none =>
            rw [hsm] at h
            dsimp only at h
            injection h with h1 h2
            subst h1
            exact absurd hr (by simp)
          | some prim =>
            rw [hsm] at h
            dsimp only at h
            injection h with h1 h2
            subst h1
            exact absurd hr (by simp)
        | some fts =>
          rw [hft] at h
          cases hsm : db.symbols with
          | none =>
            rw [hsm] at h
            dsimp only at h
            injection h with h1 h2
            subst h1
            exact absurd hr (by simp)
          | some prim =>
            rw [hsm] at h
            dsimp only at h
            injection h with h1 h2
            subst h1
            obtain ⟨jr, hjr, rfl⟩ := List.mem_map.mp hr
            refine ⟨prim, rfl, jr.2, ?_, rfl⟩
            have h3 := List.mem_of_mem_take hjr
            rw [mem_sortByKey] at h3
            have h4 := List.mem_of_mem_filter h3
            have h5 := List.mem_of_mem_filter h4
            simp only [symJoin] at h5
            rw [mem_collect] at h5
            obtain ⟨ft, -, h6⟩ := h5
            obtain ⟨s, hs, hpair⟩ := List.mem_map.mp h6
            rw [← hpair]
            exact List.mem_of_mem_filter hs

/-- C9: a declared symbol name matching the sub-unit suffix pattern
(`_DIGITS_DIGITS` at the end) is never returned by the symbol parser as a
top-level record, and therefore never appears as a top-level search result
over a rebuilt symbol index; and each retained record's description,
keywords and pin count come from that symbol's delimited text span
(declaration up to the next top-level declaration head or end of file), the
pin count counting pin declarations anywhere inside the span including its
sub-units. -/
theorem claim_C9_subunit_exclusion (symP : List Char) (sys : Sys) (d0 : DB) (now : Nat)
    (q : List Char) (libF : Option (List Char)) (limit : Nat) (env : SearchEnv)
    (rs : List SymResult) (tch : Bool)
    (hp : symP.isEmpty = false) (hd : sys.isdir symP = true) (hm : d0.hasMetadata = true)
    (hsearch : searchSymbols q libF limit env
        (rebuildSymbols (some symP) sys d0 false now).persisted =
      SearchOutcome.returned rs tch) :
    (∀ lib content r, r ∈ parseKicadSym lib content → isSubUnitName r.name = false) ∧
      (∀ r ∈ rs, isSubUnitName r.name = false) ∧
      (∀ lib content r, r ∈ parseKicadSym lib content →
        ∃ d, d ∈ findDeclsFrom content 0 ∧ isSubUnitName d.1 = false ∧
          r.name = d.1 ∧ r.library = lib ∧
          r.description = (searchPropVal descriptionKey
            ((content.take ((findNextDeclHead content d.2.2).getD content.length)).drop
              d.2.1)).getD [] ∧
          r.keywords = (searchPropVal keywordsKey
            ((content.take ((findNextDeclHead content d.2.2).getD content.length)).drop
              d.2.1)).getD [] ∧
          r.pin_count = countTag pinWord
            ((content.take ((findNextDeclHead content d.2.2).getD content.length)).drop
              d.2.1)) := by
  refine ⟨parseKicadSym_no_subunit, ?_, parseKicadSym_span⟩
  intro r hr
  rw [rebuildSymbols_success symP sys d0 now hp hd hm] at hsearch
  obtain ⟨ss, hss, s, hs, hname⟩ :=
    searchSymbols_results_from_table _ _ _ _ _ _ _ hsearch r hr
  dsimp only at hss
  obtain rfl := Option.some.inj hss
  rw [hname]
  exact symRowsFromFs_no_subunit _ s hs

/-- A small symbol library: two top-level symbols R and C, each with
sub-unit blocks (pin units) nested inside. -/
def sampleSymContent : List Char :=
  ("(kicad_symbol_lib\n\t(version 20241209)\n\t(symbol \"R\"\n\t\t(property \"Description\" \"Resistor\" (at 0 0 0))\n\t\t(property \"ki_keywords\" \"R res resistor\" (at 0 0 0))\n\t\t(symbol \"R_0_1\"\n\t\t\t(polyline (pts (xy 0 -2) (xy 0 -3)))\n\t\t)\n\t\t(symbol \"R_1_1\"\n\t\t\t(pin passive line (at 0 2 270) (number \"1\"))\n\t\t\t(pin passive line (at 0 -2 90) (number \"2\"))\n\t\t)\n\t)\n\t(symbol \"C\"\n\t\t(property \"Description\" \"Unpolarized capacitor\" (at 0 0 0))\n\t\t(property \"ki_keywords\" \"cap capacitor\" (at 0 0 0))\n\t\t(symbol \"C_1_1\"\n\t\t\t(pin passive line (at 0 2 270) (number \"1\"))\n\t\t\t(pin passive line (at 0 -2 90) (number \"2\"))\n\t\t)\n\t)\n)\n").toList

/-- The symbol library file entry of the C9 scenario. -/
def symEntryC9 : RootEntry :=
  { name := ("Device.kicad_sym").toList, isDir := false, mtime := 5, files := [],
    content := sampleSymContent }

/-- The filesystem of the C9 scenario. -/
def sysC9 : Sys :=
  { env := fun _ => none, system := OSKind.linux,
    isdir := fun p => decide (p = ("/sym").toList),
    entries := fun p => if p = ("/sym").toList then [symEntryC9] else [] }

/-- A search environment whose engine matches every row with equal rank. -/
def envC9 : SearchEnv :=
  { connectErr := false, execErr := ExecOutcome.ok,
    fpMatch := fun _ _ => true, fpRank := fun _ _ => 0,
    symMatch := fun _ _ => true, symRank := fun _ _ => 0 }

/-- The results of searching the rebuilt C9 index: the two top-level
symbols, with pin counts gathered from their sub-units, and no sub-unit
record. -/
def rsC9 : List SymResult :=
  [{ lib_id := ("Device:R").toList, name := ("R").toList, library := ("Device").toList,
     description := ("Resistor").toList, keywords := ("R res resistor").toList,
     pin_count := 2 },
   { lib_id := ("Device:C").toList, name := ("C").toList, library := ("Device").toList,
     description := ("Unpolarized capacitor").toList, keywords := ("cap capacitor").toList,
     pin_count := 2 }]

set_option maxRecDepth 40000

/-- Evaluation of the C9 scenario: rebuilding the symbol index over the
sample library and searching it returns exactly the two top-level
records. -/
theorem searchC9_eval :
    searchSymbols ("R").toList none 20 envC9
        (rebuildSymbols (some (("/sym").toList)) sysC9 emptyStore false 50).persisted =
      SearchOutcome.returned rsC9 true := by
  decide

/-- Witness for C9: the concrete scenario's search output is `rsC9` and
neither returned name matches the sub-unit pattern. -/
theorem claim_C9_witness :
    isSubUnitName (("R").toList) = false ∧ isSubUnitName (("C").toList) = false :=
  ⟨(claim_C9_subunit_exclusion (("/sym").toList) sysC9 emptyStore 50 (("R").toList)
        none 20 envC9 rsC9 true (by decide) (by decide) rfl searchC9_eval).2.1
      { lib_id := ("Device:R").toList, name := ("R").toList,
        library := ("Device").toList, description := ("Resistor").toList,
        keywords := ("R res resistor").toList, pin_count := 2 } (by decide),
    (claim_C9_subunit_exclusion (("/sym").toList) sysC9 emptyStore 50 (("R").toList)
        none 20 envC9 rsC9 true (by decide) (by decide) rfl searchC9_eval).2.1
      { lib_id := ("Device:C").toList, name := ("C").toList,
        library := ("Device").toList, description := ("Unpolarized capacitor").toList,
        keywords := ("cap capacitor").toList, pin_count := 2 } (by decide)⟩

end KicadLib
